import Mathlib

/-!
# Verification of the alerts-trigger evaluation core

Shallow embedding of the alert evaluation service of the `alerts-trigger`
repository.  JavaScript numbers are modelled as rationals (`ℚ`), fallible
code (TypeScript `throw`) as `Except`, and the remote HTTP calls of the
write-back / fetch paths as explicit oracle functions together with a trace
of the network calls that are issued.  The sources embedded here are:

* `src/services/AlertEvaluationService.ts` — `evaluateCondition`,
  `evaluateAlert`, `createLocationKey`, `evaluateAlerts`,
  `groupAlertsByLocation`;
* `src/utils/weatherDataExtractor.ts` — `extractWeatherParameter`,
  `extractFromCurrentWeather`, `extractFromForecastWeather`,
  `isParameterSupported`;
* `src/services/AlertsTriggerService.ts` — `fetchWeatherDataForLocations`,
  `updateAlertStates`, `updateAlertStatesIndividually`;
* `src/services/apis/AlertsApiService.ts` — `createBatchUpdateRequest`,
  `processBatchUpdateResult`, `updateMultiAlerts`, `updateAlertState`.
-/

set_option maxHeartbeats 1000000

deriving instance DecidableEq for Except

/-- Embedding of `'realtime' | 'forecast'` — the `type` field of a weather alert. -/
inductive AlertType where
  | realtime
  | forecast
deriving DecidableEq, Repr

/-- Embedding of `'triggered' | 'not_triggered'` — the state an evaluation produces. -/
inductive AlertState where
  | triggered
  | not_triggered
deriving DecidableEq, Repr

/-- Embedding of `'1h' | '1d'` — the timestep of a forecast alert. -/
inductive Timestep where
  | h1
  | d1
deriving DecidableEq, Repr

/-- The string value of a timestep as it appears in map keys
(`1h` / `1d`). -/
def tsString : Timestep → String
  | .h1 => "1h"
  | .d1 => "1d"

/-- The string value of an alert state (`triggered` / `not_triggered`)
as sent to the alerts store. -/
def stateString : AlertState → String
  | .triggered => "triggered"
  | .not_triggered => "not_triggered"

/-- Embedding of `LocationQuery` from `interfaces/weather.ts`: `lat`, `lon` and `city`
are all optional. -/
structure LocationQuery where
  lat : Option ℚ
  lon : Option ℚ
  city : Option String
deriving DecidableEq, Repr

/-- Embedding of `WeatherAlert` from `interfaces/weather.ts`, restricted to the fields
the evaluation core consults.  The source marks `_id` optional and asserts
it non-null (`alert._id!`) at every use, so it is modelled as required.
`parameter` and `operator` are runtime strings. -/
structure WeatherAlert where
  _id : String
  type : AlertType
  parameter : String
  operator : String
  threshold : ℚ
  location : LocationQuery
  timestep : Option Timestep
deriving DecidableEq, Repr

/-- The nested `precipitation` object of a current-weather record. -/
structure Precipitation where
  intensity : ℚ
  probability : ℚ
deriving DecidableEq, Repr

/-- Embedding of `WeatherData` from `interfaces/weather.ts` (current conditions),
restricted to the numeric fields the extractor consults; `uvIndex`,
`cloudCover`, `pressure` and `weatherCode` are optional in the interface. -/
structure WeatherData where
  temperature : ℚ
  humidity : ℚ
  windSpeed : ℚ
  windDirection : ℚ
  precipitation : Precipitation
  visibility : ℚ
  uvIndex : Option ℚ
  cloudCover : Option ℚ
  pressure : Option ℚ
  weatherCode : Option ℚ
deriving DecidableEq, Repr

/-- One element of `ForecastData.intervals`, restricted to the numeric
fields the extractor consults. -/
structure ForecastInterval where
  temperature : ℚ
  feelsLike : ℚ
  humidity : ℚ
  cloudCover : ℚ
  precipitationChance : ℚ
  windSpeed : ℚ
  uvIndex : ℚ
  weatherCode : ℚ
deriving DecidableEq, Repr

/-- Embedding of `ForecastData` from `interfaces/weather.ts`, restricted to the fields
the evaluation core consults. -/
structure ForecastData where
  timestep : Timestep
  intervals : List ForecastInterval
deriving DecidableEq, Repr

/-- The union `WeatherData | ForecastData` that flows through evaluation. -/
inductive WRecord where
  | current (data : WeatherData)
  | forecast (data : ForecastData)
deriving DecidableEq, Repr

/-- The distinct failure shapes of the extractor: the two `throw` sites of
`weatherDataExtractor.ts` (`Unknown weather parameter` and
`No forecast intervals available`), plus the behaviour of the unchecked
TypeScript cast in `extractWeatherParameter` when the runtime record shape
does not match the `isCurrentWeather` flag (reading fields that are absent
from the record). -/
inductive ExtractError where
  | unknownParameter
  | noForecastData
  | castMismatch
deriving DecidableEq, Repr

/-- Embedding of `extractFromCurrentWeather` (weatherDataExtractor.ts:38-65): direct
field lookup; `data.uvIndex || 0` etc. default the optional fields to 0;
an unknown parameter name throws. -/
def extractFromCurrentWeather (data : WeatherData) (parameter : String) :
    Except ExtractError ℚ :=
  match parameter with
  | "temperature" => .ok data.temperature
  | "humidity" => .ok data.humidity
  | "windSpeed" => .ok data.windSpeed
  | "windDirection" => .ok data.windDirection
  | "precipitation.intensity" => .ok data.precipitation.intensity
  | "precipitation.probability" => .ok data.precipitation.probability
  | "visibility" => .ok data.visibility
  | "uvIndex" => .ok (data.uvIndex.getD 0)
  | "cloudCover" => .ok (data.cloudCover.getD 0)
  | "pressure" => .ok (data.pressure.getD 0)
  | "weatherCode" => .ok (data.weatherCode.getD 0)
  | _ => .error .unknownParameter

/-- Embedding of `extractFromForecastWeather` (weatherDataExtractor.ts:70-108): throws
when the interval list is empty, otherwise reads the first interval;
`windDirection` and `pressure` yield 0, `visibility` yields 10000, both
precipitation parameters read `precipitationChance`. -/
def extractFromForecastWeather (data : ForecastData) (parameter : String) :
    Except ExtractError ℚ :=
  match data.intervals with
  | [] => .error .noForecastData
  | nextInterval :: _ =>
    match parameter with
    | "temperature" => .ok nextInterval.temperature
    | "humidity" => .ok nextInterval.humidity
    | "windSpeed" => .ok nextInterval.windSpeed
    | "windDirection" => .ok 0
    | "precipitation.intensity" => .ok nextInterval.precipitationChance
    | "precipitation.probability" => .ok nextInterval.precipitationChance
    | "visibility" => .ok 10000
    | "uvIndex" => .ok nextInterval.uvIndex
    | "cloudCover" => .ok nextInterval.cloudCover
    | "pressure" => .ok 0
    | "weatherCode" => .ok nextInterval.weatherCode
    | _ => .error .unknownParameter

/-- Embedding of `extractWeatherParameter` (weatherDataExtractor.ts:12-33): dispatches
on the `isCurrentWeather` flag via an unchecked cast.  A record whose
runtime shape disagrees with the flag makes the cast read fields the
record does not carry, which is modelled as the `castMismatch` fault; the
function rethrows every fault it encounters. -/
def extractWeatherParameter (data : WRecord) (parameter : String)
    (isCurrentWeather : Bool) : Except ExtractError ℚ :=
  if isCurrentWeather then
    match data with
    | .current weatherData => extractFromCurrentWeather weatherData parameter
    | .forecast _ => .error .castMismatch
  else
    match data with
    | .forecast forecastData => extractFromForecastWeather forecastData parameter
    | .current _ => .error .castMismatch

/-- Embedding of `isParameterSupported` (weatherDataExtractor.ts:113-128). -/
def isParameterSupported (parameter : String) (isCurrentWeather : Bool) :
    Bool :=
  let currentWeatherParams : List String :=
    ["temperature", "humidity", "windSpeed", "windDirection",
     "precipitation.intensity", "precipitation.probability",
     "visibility", "uvIndex", "cloudCover", "pressure", "weatherCode"]
  let forecastWeatherParams : List String :=
    ["temperature", "humidity", "windSpeed",
     "precipitation.intensity", "precipitation.probability",
     "uvIndex", "cloudCover", "weatherCode"]
  let supportedParams :=
    if isCurrentWeather then currentWeatherParams else forecastWeatherParams
  supportedParams.contains parameter

/-- Embedding of `evaluateCondition` (AlertEvaluationService.ts:13-35): exact
comparisons for the four order operators, a `0.01` absolute tolerance for
`==` / `!=`, and `false` for any other operator string. -/
def evaluateCondition (actualValue : ℚ) (operator : String)
    (threshold : ℚ) : Bool :=
  match operator with
  | ">" => decide (actualValue > threshold)
  | "<" => decide (actualValue < threshold)
  | ">=" => decide (actualValue ≥ threshold)
  | "<=" => decide (actualValue ≤ threshold)
  | "==" => decide (abs (actualValue - threshold) < (0.01 : ℚ))
  | "!=" => decide (abs (actualValue - threshold) ≥ (0.01 : ℚ))
  | _ => false

/-- Embedding of `evaluateAlert` (AlertEvaluationService.ts:40-94): support check, then
extraction, then condition; the surrounding `try`/`catch` turns every
fault into `not_triggered`, which the `Except` plumbing reproduces. -/
def evaluateAlert (alert : WeatherAlert) (weatherData : WRecord) :
    AlertState :=
  let isCurrentWeather := decide (alert.type = .realtime)
  if !(isParameterSupported alert.parameter isCurrentWeather) then
    .not_triggered
  else
    match extractWeatherParameter weatherData alert.parameter isCurrentWeather with
    | .error _ => .not_triggered
    | .ok actualValue =>
      if evaluateCondition actualValue alert.operator alert.threshold then
        .triggered
      else
        .not_triggered

/-- JavaScript `String.prototype.toLowerCase`, modelled character by
character. -/
def jsToLower (s : String) : String :=
  ⟨s.data.map Char.toLower⟩

/-- JavaScript `String.prototype.trim`: strips whitespace from both ends
of the string. -/
def jsTrim (s : String) : String :=
  ⟨(((s.data.dropWhile Char.isWhitespace).reverse.dropWhile
      Char.isWhitespace).reverse)⟩

/-- Embedding of `createLocationKey` (AlertEvaluationService.ts:99-107): coordinates
(both present) win and are rendered as `lat,lon`; otherwise a truthy
(non-empty) city is lowercased and trimmed; otherwise the function
throws. -/
def createLocationKey (location : LocationQuery) : Except String String :=
  match location.lat, location.lon with
  | some lat, some lon => .ok (toString lat ++ "," ++ toString lon)
  | _, _ =>
    match location.city with
    | some city =>
      if city = "" then .error "Invalid location for key generation"
      else .ok (jsTrim (jsToLower city))
    | none => .error "Invalid location for key generation"

/-- Association-list lookup, modelling `Map.get`. -/
def lookupKey {κ β : Type} [DecidableEq κ] (m : List (κ × β)) (k : κ) :
    Option β :=
  (m.find? (fun e => decide (e.1 = k))).map (·.2)

/-- Association-list update, modelling `Map.set`: replaces the value of an
existing key in place, or appends a fresh key at the end. -/
def setEntry {κ β : Type} [DecidableEq κ] (m : List (κ × β)) (k : κ)
    (v : β) : List (κ × β) :=
  match m with
  | [] => [(k, v)]
  | (k', v') :: rest =>
    if k' = k then (k, v) :: rest else (k', v') :: setEntry rest k v

/-- The `if (!grouped.has(k)) grouped.set(k, []); grouped.get(k)!.push(v)`
idiom shared by `groupAlertsByLocation` and `updateMultiAlerts`: appends
`v` to the list stored under `k`, creating the entry at the end of the map
when absent. -/
def insertGrouped {κ β : Type} [DecidableEq κ] (m : List (κ × List β))
    (k : κ) (v : β) : List (κ × List β) :=
  match m with
  | [] => [(k, [v])]
  | (k', l) :: rest =>
    if k' = k then (k', l ++ [v]) :: rest
    else (k', l) :: insertGrouped rest k v

/-- One iteration of the `for` loop of `groupAlertsByLocation`
(AlertEvaluationService.ts:177-193): alerts whose `createLocationKey`
throws are skipped with a warning. -/
def groupStep (grouped : List (String × List WeatherAlert))
    (alert : WeatherAlert) : List (String × List WeatherAlert) :=
  match createLocationKey alert.location with
  | .ok locationKey => insertGrouped grouped locationKey alert
  | .error _ => grouped

/-- Embedding of `groupAlertsByLocation` (AlertEvaluationService.ts:174-197). -/
def groupAlertsByLocation (alerts : List WeatherAlert) :
    List (String × List WeatherAlert) :=
  alerts.foldl groupStep []

/-- The `realtime:${locationKey}` weather-map key. -/
def realtimeKey (locationKey : String) : String :=
  "realtime:" ++ locationKey

/-- The `forecast:${timestep}:${locationKey}` weather-map key. -/
def forecastKey (timestep : Timestep) (locationKey : String) : String :=
  "forecast:" ++ tsString timestep ++ ":" ++ locationKey

/-- The weather-map key computed for an alert inside `evaluateAlerts`
(AlertEvaluationService.ts:122-133): `realtime:` prefix for realtime
alerts, `forecast:` plus the alert's timestep (defaulting to `1h`)
otherwise; propagates the `createLocationKey` failure. -/
def weatherDataKey (alert : WeatherAlert) : Except String String :=
  (createLocationKey alert.location).map (fun locationKey =>
    match alert.type with
    | .realtime => realtimeKey locationKey
    | .forecast => forecastKey (alert.timestep.getD .h1) locationKey)

/-- One iteration of the `for` loop of `evaluateAlerts`
(AlertEvaluationService.ts:120-158): a thrown `createLocationKey` is
caught and recorded as `not_triggered`; a missing weather-map entry also
records `not_triggered`; otherwise the alert is evaluated against the
entry found. -/
def evalStep (weatherDataMap : List (String × WRecord))
    (results : List (String × AlertState)) (alert : WeatherAlert) :
    List (String × AlertState) :=
  match weatherDataKey alert with
  | .error _ => setEntry results alert._id .not_triggered
  | .ok key =>
    match lookupKey weatherDataMap key with
    | none => setEntry results alert._id .not_triggered
    | some weatherData =>
      setEntry results alert._id (evaluateAlert alert weatherData)

/-- Embedding of `evaluateAlerts` (AlertEvaluationService.ts:112-169): every alert gets
an entry keyed by its id; a missing weather-map entry, a thrown
`createLocationKey`, or any per-alert fault yields `not_triggered`. -/
def evaluateAlerts (alerts : List WeatherAlert)
    (weatherDataMap : List (String × WRecord)) :
    List (String × AlertState) :=
  alerts.foldl (evalStep weatherDataMap) []

/-- First-occurrence deduplication, modelling iteration over a JS `Set`
built by insertion. -/
def uniqueList {α : Type} [DecidableEq α] (seen : List α) :
    List α → List α
  | [] => []
  | a :: rest =>
    if a ∈ seen then uniqueList seen rest
    else a :: uniqueList (a :: seen) rest

/-- The `new Set(forecastAlerts.map(a => a.timestep || '1h'))` of
`fetchWeatherDataForLocations`. -/
def groupTimesteps (locationAlerts : List WeatherAlert) : List Timestep :=
  uniqueList []
    ((locationAlerts.filter (fun a => decide (a.type = .forecast))).map
      (fun a => a.timestep.getD .h1))

/-- Oracle for `getRealTimeWeather`: the settled outcome of the HTTP fetch
for a location (`.error` = rejected promise). -/
abbrev RealtimeOracle := LocationQuery → Except String WeatherData

/-- Oracle for `getForecastWeather`. -/
abbrev ForecastOracle := LocationQuery → Timestep → Except String ForecastData

/-- The body of the per-group loop of `fetchWeatherDataForLocations`
(AlertsTriggerService.ts:62-129) together with the settlement of the
fetch promises it creates: a failed fetch is absorbed by its `.catch` and
writes nothing; a successful fetch writes its key unless the key is
already present (the duplicate is discarded with a warning).  The source
settles all fetches of all groups concurrently with `Promise.allSettled`;
because every key names its own group and timestep, the final map content
is the same for every completion order, and the embedding fixes the
program-text order. -/
def forecastFetchStep (fc : ForecastOracle) (location : LocationQuery)
    (locationKey : String) (m2 : List (String × WRecord))
    (timestep : Timestep) : List (String × WRecord) :=
  match fc location timestep with
  | .ok data =>
    if (lookupKey m2 (forecastKey timestep locationKey)).isSome then m2
    else m2 ++ [(forecastKey timestep locationKey, .forecast data)]
  | .error _ => m2

def fetchStep (rt : RealtimeOracle) (fc : ForecastOracle)
    (m : List (String × WRecord)) (group : String × List WeatherAlert) :
    List (String × WRecord) :=
  match group.2 with
  | [] => m
  | sampleAlert :: _ =>
    let locationKey := group.1
    let needsRealtime := group.2.any (fun a => decide (a.type = .realtime))
    let needsForecast := group.2.any (fun a => decide (a.type = .forecast))
    let m1 :=
      if needsRealtime then
        match rt sampleAlert.location with
        | .ok data =>
          if (lookupKey m (realtimeKey locationKey)).isSome then m
          else m ++ [(realtimeKey locationKey, .current data)]
        | .error _ => m
      else m
    if needsForecast then
      (groupTimesteps group.2).foldl
        (forecastFetchStep fc sampleAlert.location locationKey) m1
    else m1

/-- Embedding of `fetchWeatherDataForLocations` (AlertsTriggerService.ts:54-136). -/
def fetchWeatherDataForLocations (rt : RealtimeOracle) (fc : ForecastOracle)
    (alertsByLocation : List (String × List WeatherAlert)) :
    List (String × WRecord) :=
  alertsByLocation.foldl (fetchStep rt fc) []

/-- Specification helper for `fetchStep`: the single forecast entry a
settled forecast fetch contributes (nothing on failure). -/
def forecastEntry (fc : ForecastOracle) (location : LocationQuery)
    (locationKey : String) (timestep : Timestep) :
    List (String × WRecord) :=
  match fc location timestep with
  | .ok data => [(forecastKey timestep locationKey, .forecast data)]
  | .error _ => []

/-- Specification helper for `fetchWeatherDataForLocations`: the entries
one location group contributes when no key collision occurs — its
realtime entry (when needed and successfully fetched) followed by one
forecast entry per distinct timestep (those successfully fetched). -/
def groupEntries (rt : RealtimeOracle) (fc : ForecastOracle)
    (group : String × List WeatherAlert) : List (String × WRecord) :=
  match group.2 with
  | [] => []
  | sampleAlert :: _ =>
    (if group.2.any (fun a => decide (a.type = .realtime)) then
       match rt sampleAlert.location with
       | .ok data => [(realtimeKey group.1, .current data)]
       | .error _ => []
     else []) ++
    (if group.2.any (fun a => decide (a.type = .forecast)) then
       (groupTimesteps group.2).flatMap
         (forecastEntry fc sampleAlert.location group.1)
     else [])

/-- Specification helper: every key one location group can ever write. -/
def candidateKeys (group : String × List WeatherAlert) : List String :=
  realtimeKey group.1 ::
    (groupTimesteps group.2).map (fun ts => forecastKey ts group.1)

/-- Embedding of `AlertStateUpdate` (AlertsApiService.ts). -/
structure AlertStateUpdate where
  alertId : String
  newState : AlertState
deriving DecidableEq, Repr

/-- A network call issued by the write-back path. -/
inductive NetCall where
  | bulkUpdate (state : String) (alertIds : List String)
  | putAlert (alertId : String) (newState : AlertState)
deriving DecidableEq, Repr

/-- The `{modifiedCount, matchedCount}` payload of a bulk-update
response. -/
structure BulkCounts where
  modifiedCount : Nat
  matchedCount : Nat
deriving DecidableEq, Repr

/-- The HTTP body `{success, data?}` of a bulk-update response. -/
structure BulkResponseBody where
  success : Bool
  data : Option BulkCounts
deriving DecidableEq, Repr

/-- Settled outcome of the bulk-update PATCH for one batch: the promise
either resolves with a body or rejects at the transport level. -/
inductive BulkPatchOutcome where
  | resolve (body : BulkResponseBody)
  | reject (message : String)
deriving DecidableEq, Repr

/-- Oracle for the `PATCH …/alerts/bulk-update` call, indexed by the batch
it is asked to update. -/
abbrev PatchOracle := String → List String → BulkPatchOutcome

/-- The record that `createBatchUpdateRequest` resolves with. -/
structure BatchReqResult where
  state : String
  alertIds : List String
  success : Bool
  response : Option BulkResponseBody
  error : Option String
deriving DecidableEq, Repr

/-- Embedding of `createBatchUpdateRequest` (AlertsApiService.ts:220-243): issues the
PATCH and absorbs a transport-level rejection in its own `.catch`,
resolving with `success: false` instead of rethrowing.  Returns the call
it issued alongside the record it resolves with. -/
def createBatchUpdateRequest (oracle : PatchOracle) (state : String)
    (alertIds : List String) : List NetCall × BatchReqResult :=
  ([.bulkUpdate state alertIds],
   match oracle state alertIds with
   | .resolve body =>
     { state := state, alertIds := alertIds, success := true,
       response := some body, error := none }
   | .reject msg =>
     { state := state, alertIds := alertIds, success := false,
       response := none, error := some msg })

/-- Embedding of `processBatchUpdateResult` (AlertsApiService.ts:246-293): when the
request resolved and the body reports success, the first `modifiedCount`
ids of the batch are successful and the rest failed; otherwise the whole
batch is failed.  `response.data || {}` defaults `modifiedCount` to 0. -/
def processBatchUpdateResult (result : BatchReqResult) :
    List String × List String :=
  if result.success && ((result.response.map (·.success)).getD false) then
    let modifiedCount :=
      ((result.response.bind (·.data)).map (·.modifiedCount)).getD 0
    (result.alertIds.take modifiedCount, result.alertIds.drop modifiedCount)
  else
    ([], result.alertIds)

/-- The `updatesByState` grouping of `updateMultiAlerts`. -/
def groupByState (updates : List AlertStateUpdate) :
    List (AlertState × List String) :=
  updates.foldl (fun m u => insertGrouped m u.newState u.alertId) []

/-- The aggregate result of `updateMultiAlerts`. -/
structure MultiUpdateResult where
  success : Bool
  successfulUpdates : List String
  failedUpdates : List String
deriving DecidableEq, Repr

/-- Embedding of `updateMultiAlerts` (AlertsApiService.ts:295-374): early return on an
empty list with no call; otherwise one concurrent batch PATCH per state
group, settled with `Promise.allSettled` and aggregated.  Every batch
promise is a `createBatchUpdateRequest`, which never rejects, so the
`rejected` branch of the aggregation and the function's outer `catch` are
unreachable and the function never throws. -/
def updateMultiAlerts (oracle : PatchOracle)
    (updates : List AlertStateUpdate) : List NetCall × MultiUpdateResult :=
  if updates.isEmpty then
    ([], { success := true, successfulUpdates := [], failedUpdates := [] })
  else
    let updatesByState := groupByState updates
    let batchResults := updatesByState.map
      (fun g => createBatchUpdateRequest oracle (stateString g.1) g.2)
    let processed := batchResults.map
      (fun r => processBatchUpdateResult r.2)
    let allSuccessfulUpdates := processed.flatMap Prod.fst
    let allFailedUpdates := processed.flatMap Prod.snd
    (batchResults.flatMap Prod.fst,
     { success := allFailedUpdates.length == 0,
       successfulUpdates := allSuccessfulUpdates,
       failedUpdates := allFailedUpdates })

/-- Oracle for the single-alert `PUT` call: the HTTP outcome before
`updateAlertState`'s own handling (`.ok flag` = body with that `success`
flag, `.error` = transport rejection). -/
abbrev PutOracle := String → AlertState → Except String Bool

/-- Embedding of `updateAlertState` (AlertsApiService.ts:279-304): resolves `true` on a
successful body, `false` on a failure body, and `false` (via its
`.catch`) on a transport rejection — it never rejects. -/
def updateAlertState (oracle : PutOracle) (alertId : String)
    (newState : AlertState) : List NetCall × Bool :=
  ([.putAlert alertId newState],
   match oracle alertId newState with
   | .ok flag => flag
   | .error _ => false)

/-- The evaluation-result entries whose new state is `triggered` — the
filter shared by `updateAlertStates` and
`updateAlertStatesIndividually`. -/
def triggeredPairs (evaluationResults : List (String × AlertState)) :
    List (String × AlertState) :=
  evaluationResults.filter (fun e => decide (e.2 = .triggered))

/-- Embedding of `updateAlertStatesIndividually` (AlertsTriggerService.ts:199-248): one
independent `PUT` per triggered alert id, settled with
`Promise.allSettled`; per-item failures are counted, never propagated.
Returns the calls made and the `(successCount, failureCount)` tallies;
`indivStep` is the handling of one triggered entry (the `updateAlertState`
call together with its `.then` counter bookkeeping). -/
def indivStep (oracle : PutOracle) (acc : List NetCall × Nat × Nat)
    (e : String × AlertState) : List NetCall × Nat × Nat :=
  let r := updateAlertState oracle e.1 e.2
  (acc.1 ++ r.1,
   if r.2 then (acc.2.1 + 1, acc.2.2) else (acc.2.1, acc.2.2 + 1))

/-- Embedding of `updateAlertStatesIndividually` (AlertsTriggerService.ts:199-248),
see `indivStep`. -/
def updateAlertStatesIndividually (oracle : PutOracle)
    (evaluationResults : List (String × AlertState)) :
    List NetCall × Nat × Nat :=
  let triggeredAlerts := triggeredPairs evaluationResults
  if triggeredAlerts.isEmpty then ([], 0, 0)
  else
    triggeredAlerts.foldl (indivStep oracle) ([], 0, 0)

/-- Embedding of `updateAlertStates` (AlertsTriggerService.ts:142-193): early return
with no network call when the result map is empty or nothing is
triggered; otherwise one `updateMultiAlerts` call on the triggered
entries.  The source wraps that call in a `try`/`catch` whose `catch`
falls back to `updateAlertStatesIndividually`, but `updateMultiAlerts`
resolves in every case (its transport failures are absorbed inside
`createBatchUpdateRequest` and its own `catch`), so the fallback branch is
unreachable and the embedding omits it.  Returns the calls made and the
batch result observed (`none` when no call was made). -/
def updateAlertStates (oracle : PatchOracle)
    (evaluationResults : List (String × AlertState)) :
    List NetCall × Option MultiUpdateResult :=
  if evaluationResults.isEmpty then ([], none)
  else
    let triggeredAlerts := (triggeredPairs evaluationResults).map
      (fun e => AlertStateUpdate.mk e.1 e.2)
    if triggeredAlerts.isEmpty then ([], none)
    else
      let r := updateMultiAlerts oracle triggeredAlerts
      (r.1, some r.2)

/-- The latitude bounds of the repository's own Alert model
(`src/models/Alert.ts`: `min: -90, max: 90`). -/
def latInRange (lat : ℚ) : Prop := -90 ≤ lat ∧ lat ≤ 90

/-- The longitude bounds of the repository's own Alert model
(`src/models/Alert.ts`: `min: -180, max: 180`). -/
def lonInRange (lon : ℚ) : Prop := -180 ≤ lon ∧ lon ≤ 180

/-! ## Association-list lemmas -/

theorem lookupKey_nil {κ β : Type} [DecidableEq κ] (k : κ) :
    lookupKey ([] : List (κ × β)) k = none := rfl

theorem lookupKey_cons {κ β : Type} [DecidableEq κ] (k' : κ) (v : β)
    (m : List (κ × β)) (k : κ) :
    lookupKey ((k', v) :: m) k = if k' = k then some v else lookupKey m k := by
  by_cases h : k' = k <;> simp [lookupKey, List.find?_cons, h]

theorem lookupKey_append {κ β : Type} [DecidableEq κ] (m₁ m₂ : List (κ × β))
    (k : κ) :
    lookupKey (m₁ ++ m₂) k =
      match lookupKey m₁ k with
      | some v => some v
      | none => lookupKey m₂ k := by
  induction m₁ with
  | nil => simp [lookupKey_nil]
  | cons p rest ih =>
    obtain ⟨k', v⟩ := p
    by_cases h : k' = k <;> simp [lookupKey_cons, h, ih]

theorem lookupKey_eq_none_iff {κ β : Type} [DecidableEq κ]
    {m : List (κ × β)} {k : κ} :
    lookupKey m k = none ↔ ∀ p ∈ m, p.1 ≠ k := by
  induction m with
  | nil => simp [lookupKey_nil]
  | cons p rest ih =>
    obtain ⟨k', v⟩ := p
    by_cases h : k' = k <;> simp [lookupKey_cons, h, ih]

theorem lookupKey_some_mem {κ β : Type} [DecidableEq κ]
    {m : List (κ × β)} {k : κ} {v : β} (h : lookupKey m k = some v) :
    (k, v) ∈ m := by
  induction m with
  | nil => simp [lookupKey_nil] at h
  | cons p rest ih =>
    obtain ⟨k', v'⟩ := p
    by_cases hk : k' = k
    · subst hk
      simp [lookupKey_cons] at h
      simp [h]
    · simp [lookupKey_cons, hk] at h
      exact List.mem_cons_of_mem _ (ih h)

theorem lookupKey_of_mem_nodup {κ β : Type} [DecidableEq κ]
    {m : List (κ × β)} {k : κ} {v : β}
    (hnd : (m.map Prod.fst).Nodup) (h : (k, v) ∈ m) :
    lookupKey m k = some v := by
  induction m with
  | nil => simp at h
  | cons p rest ih =>
    obtain ⟨k', v'⟩ := p
    simp only [List.map_cons, List.nodup_cons] at hnd
    rcases List.mem_cons.mp h with h1 | h2
    · obtain ⟨rfl, rfl⟩ := Prod.mk.injEq .. ▸ h1
      simp [lookupKey_cons]
    · have hne : k' ≠ k := by
        rintro rfl
        exact hnd.1 (List.mem_map.mpr ⟨(k', v), h2, rfl⟩)
      simp [lookupKey_cons, hne, ih hnd.2 h2]

theorem lookupKey_setEntry {κ β : Type} [DecidableEq κ]
    (m : List (κ × β)) (k : κ) (v : β) (k' : κ) :
    lookupKey (setEntry m k v) k' =
      if k = k' then some v else lookupKey m k' := by
  induction m with
  | nil => by_cases h : k = k' <;> simp [setEntry, lookupKey_cons, h]
  | cons p rest ih =>
    obtain ⟨k₀, v₀⟩ := p
    by_cases h0 : k₀ = k
    · subst h0
      by_cases h : k₀ = k' <;> simp [setEntry, lookupKey_cons, h]
    · by_cases h : k₀ = k'
      · subst h
        have : k ≠ k₀ := fun hk => h0 hk.symm
        simp [setEntry, h0, lookupKey_cons, this]
      · simp [setEntry, h0, lookupKey_cons, h, ih]

theorem lookupKey_insertGrouped {κ β : Type} [DecidableEq κ]
    (m : List (κ × List β)) (k : κ) (v : β) (k' : κ) :
    lookupKey (insertGrouped m k v) k' =
      if k = k' then some ((lookupKey m k).getD [] ++ [v])
      else lookupKey m k' := by
  induction m with
  | nil =>
    by_cases h : k = k' <;> simp [insertGrouped, lookupKey_cons, lookupKey_nil, h]
  | cons p rest ih =>
    obtain ⟨k₀, l₀⟩ := p
    by_cases h0 : k₀ = k
    · subst h0
      by_cases h : k₀ = k' <;> simp [insertGrouped, lookupKey_cons, h]
    · by_cases h : k₀ = k'
      · subst h
        have : k ≠ k₀ := fun hk => h0 hk.symm
        simp [insertGrouped, h0, lookupKey_cons, this]
      · simp [insertGrouped, h0, lookupKey_cons, h, ih]

theorem keys_insertGrouped {κ β : Type} [DecidableEq κ]
    (m : List (κ × List β)) (k : κ) (v : β) :
    (insertGrouped m k v).map Prod.fst =
      if (lookupKey m k).isSome then m.map Prod.fst
      else m.map Prod.fst ++ [k] := by
  induction m with
  | nil => simp [insertGrouped, lookupKey_nil]
  | cons p rest ih =>
    obtain ⟨k₀, l₀⟩ := p
    by_cases h0 : k₀ = k
    · subst h0
      simp [insertGrouped, lookupKey_cons]
    · cases hrest : lookupKey rest k <;>
        simp [insertGrouped, h0, lookupKey_cons, ih, hrest]

theorem nodup_keys_insertGrouped {κ β : Type} [DecidableEq κ]
    {m : List (κ × List β)} (k : κ) (v : β)
    (hnd : (m.map Prod.fst).Nodup) :
    ((insertGrouped m k v).map Prod.fst).Nodup := by
  rw [keys_insertGrouped]
  cases h : lookupKey m k with
  | some val => simp [h, hnd]
  | none =>
    have hk : k ∉ m.map Prod.fst := by
      intro hmem
      obtain ⟨p, hp, hfst⟩ := List.mem_map.mp hmem
      exact (lookupKey_eq_none_iff.mp h p hp) hfst
    simp [h, List.nodup_append, hnd, hk]

/-! ## C1 — condition evaluator -/

/-- C1: for every number value and threshold, `evaluateCondition` returns
exactly the mathematical comparison for `>`, `<`, `>=`, `<=`; for `==` it
is true iff `|value - threshold| < 0.01`; for `!=` it is true iff
`|value - threshold| ≥ 0.01`; and any operator string outside the
enumerated set evaluates to `false` instead of throwing. -/
theorem evaluateCondition_spec (v t : ℚ) (op : String) :
    (evaluateCondition v ">" t = true ↔ v > t) ∧
    (evaluateCondition v "<" t = true ↔ v < t) ∧
    (evaluateCondition v ">=" t = true ↔ v ≥ t) ∧
    (evaluateCondition v "<=" t = true ↔ v ≤ t) ∧
    (evaluateCondition v "==" t = true ↔ abs (v - t) < (0.01 : ℚ)) ∧
    (evaluateCondition v "!=" t = true ↔ abs (v - t) ≥ (0.01 : ℚ)) ∧
    (op ∉ ([">", "<", ">=", "<=", "==", "!="] : List String) →
      evaluateCondition v op t = false) := by
  refine ⟨by simp [evaluateCondition], by simp [evaluateCondition],
    by simp [evaluateCondition], by simp [evaluateCondition],
    by simp [evaluateCondition], by simp [evaluateCondition],
    fun hop => ?_⟩
  unfold evaluateCondition
  split <;> simp_all

/-- Witness for C1 at concrete inputs: `35 > 30` triggers and the unknown
operator `~` evaluates to `false`. -/
theorem evaluateCondition_spec_witness :
    evaluateCondition 35 ">" 30 = true ∧
    evaluateCondition 35 "~" 30 = false :=
  ⟨(evaluateCondition_spec 35 30 "~").1.mpr (by norm_num),
   (evaluateCondition_spec 35 30 "~").2.2.2.2.2.2 (by decide)⟩

/-! ## C2 — fail-safe single-alert evaluation -/

/-- C2: `evaluateAlert` is total (the embedding returns a state for every
alert and record, mirroring the `try`/`catch` that absorbs every
per-alert fault), resolves unsupported parameter/kind combinations and
extraction failures to `not_triggered`, and returns `triggered` exactly
when the supported, successfully extracted value satisfies the alert's
condition. -/
theorem evaluateAlert_spec (alert : WeatherAlert) (wd : WRecord) :
    (isParameterSupported alert.parameter (decide (alert.type = .realtime)) = false →
        evaluateAlert alert wd = .not_triggered) ∧
    (∀ e, extractWeatherParameter wd alert.parameter
            (decide (alert.type = .realtime)) = .error e →
        evaluateAlert alert wd = .not_triggered) ∧
    (evaluateAlert alert wd = .triggered ↔
      isParameterSupported alert.parameter (decide (alert.type = .realtime)) = true ∧
      ∃ v, extractWeatherParameter wd alert.parameter
              (decide (alert.type = .realtime)) = .ok v ∧
           evaluateCondition v alert.operator alert.threshold = true) := by
  unfold evaluateAlert
  by_cases hsup : isParameterSupported alert.parameter
      (decide (alert.type = .realtime)) = true
  · cases hext : extractWeatherParameter wd alert.parameter
        (decide (alert.type = .realtime)) with
    | error e => simp [hsup, hext]
    | ok v =>
      by_cases hcond : evaluateCondition v alert.operator alert.threshold = true
      · simp [hsup, hext, hcond]
      · simp [hsup, hext, hcond]
  · simp only [Bool.not_eq_true] at hsup
    simp [hsup]

/-- Witness for C2: a realtime temperature alert with threshold 30 against
a 35-degree current record triggers, and a forecast-only parameter on a
realtime alert resolves to `not_triggered`. -/
theorem evaluateAlert_spec_witness :
    evaluateAlert
      { _id := "w1", type := .realtime, parameter := "temperature",
        operator := ">", threshold := 30,
        location := { lat := none, lon := none, city := some "Cairo" },
        timestep := none }
      (.current { temperature := 35, humidity := 50, windSpeed := 10,
                  windDirection := 0,
                  precipitation := { intensity := 0, probability := 0 },
                  visibility := 10000, uvIndex := none, cloudCover := none,
                  pressure := none, weatherCode := none }) = .triggered ∧
    evaluateAlert
      { _id := "w2", type := .forecast, parameter := "visibility",
        operator := ">", threshold := 0,
        location := { lat := none, lon := none, city := some "Cairo" },
        timestep := none }
      (.forecast { timestep := .h1, intervals := [] }) = .not_triggered :=
  ⟨(evaluateAlert_spec _ _).2.2.mpr ⟨by decide, 35, by decide, by decide⟩,
   (evaluateAlert_spec _ _).1 (by decide)⟩

/-! ## C3 — forecast extraction -/

/-- C3: forecast extraction fails with the `NoForecastData` fault exactly
when the interval list is empty; otherwise it depends only on interval
`[0]`, where `windDirection` and `pressure` yield `0`, `visibility`
yields `10000`, and both precipitation parameters yield the first
interval's `precipitationChance`. -/
theorem extractFromForecastWeather_spec (d : ForecastData) (p : String) :
    (extractFromForecastWeather d p = .error .noForecastData ↔
      d.intervals = []) ∧
    (∀ d' : ForecastData, d.intervals ≠ [] →
      d.intervals.head? = d'.intervals.head? →
      extractFromForecastWeather d p = extractFromForecastWeather d' p) ∧
    (∀ iv rest, d.intervals = iv :: rest →
      extractFromForecastWeather d "windDirection" = .ok 0 ∧
      extractFromForecastWeather d "pressure" = .ok 0 ∧
      extractFromForecastWeather d "visibility" = .ok 10000 ∧
      extractFromForecastWeather d "precipitation.intensity" =
        .ok iv.precipitationChance ∧
      extractFromForecastWeather d "precipitation.probability" =
        .ok iv.precipitationChance) := by
  obtain ⟨ts, ivs⟩ := d
  cases ivs with
  | nil =>
    refine ⟨by simp [extractFromForecastWeather], ?_, ?_⟩
    · intro d' hne
      simp at hne
    · intro iv rest h
      simp at h
  | cons iv rest =>
    refine ⟨?_, ?_, ?_⟩
    · constructor
      · intro h
        exfalso
        simp only [extractFromForecastWeather] at h
        split at h <;> simp_all
      · intro h
        simp at h
    · intro d' _ hhead
      obtain ⟨ts', ivs'⟩ := d'
      cases ivs' with
      | nil => simp at hhead
      | cons iv' rest' =>
        simp only [List.head?] at hhead
        obtain rfl : iv = iv' := by simpa using hhead
        rfl
    · intro iv' rest' h
      obtain ⟨rfl, rfl⟩ : iv = iv' ∧ rest = rest' := by simpa using h
      exact ⟨rfl, rfl, rfl, rfl, rfl⟩

/-- Witness for C3: a concrete one-interval forecast record yields the
defaults `0`, `0`, `10000` and the precipitation chance `40`. -/
theorem extractFromForecastWeather_spec_witness :
    extractFromForecastWeather
      { timestep := .h1,
        intervals := [{ temperature := 20, feelsLike := 19, humidity := 60,
                        cloudCover := 30, precipitationChance := 40,
                        windSpeed := 5, uvIndex := 2, weatherCode := 1000 }] }
      "windDirection" = .ok 0 ∧
    extractFromForecastWeather
      { timestep := .h1,
        intervals := [{ temperature := 20, feelsLike := 19, humidity := 60,
                        cloudCover := 30, precipitationChance := 40,
                        windSpeed := 5, uvIndex := 2, weatherCode := 1000 }] }
      "precipitation.probability" = .ok 40 := by
  have h := (extractFromForecastWeather_spec
    { timestep := .h1,
      intervals := [{ temperature := 20, feelsLike := 19, humidity := 60,
                      cloudCover := 30, precipitationChance := 40,
                      windSpeed := 5, uvIndex := 2, weatherCode := 1000 }] }
    "windDirection").2.2 _ _ rfl
  exact ⟨h.1, h.2.2.2.2⟩

/-! ## C4 — extraction totality (corrected) -/

/-- Counterexample to C4 as stated: `temperature` is in the supported set
for forecast records, yet extraction on a forecast record whose interval
list is empty fails with `NoForecastData` — so extraction is not total on
supported parameters for the forecast kind. -/
theorem extraction_empty_forecast_cx :
    isParameterSupported "temperature" false = true ∧
    extractWeatherParameter (.forecast { timestep := .h1, intervals := [] })
      "temperature" false = .error .noForecastData := by
  exact ⟨by decide, by decide⟩

/-- C4 as amended: for every parameter in the supported set for a record
kind, extraction on a matching record never faults — provided, for the
forecast kind, the record has at least one interval (an empty forecast
faults with `NoForecastData` regardless of the parameter) — and for
instantaneous records the absent optional fields `uvIndex`, `cloudCover`,
`pressure` and `weatherCode` extract as the default `0`. -/
theorem extraction_total_spec :
    (∀ p, isParameterSupported p true = true → ∀ w : WeatherData,
      ∃ v, extractWeatherParameter (.current w) p true = .ok v) ∧
    (∀ p, isParameterSupported p false = true → ∀ f : ForecastData,
      f.intervals ≠ [] →
      ∃ v, extractWeatherParameter (.forecast f) p false = .ok v) ∧
    (∀ w : WeatherData,
      (w.uvIndex = none →
        extractWeatherParameter (.current w) "uvIndex" true = .ok 0) ∧
      (w.cloudCover = none →
        extractWeatherParameter (.current w) "cloudCover" true = .ok 0) ∧
      (w.pressure = none →
        extractWeatherParameter (.current w) "pressure" true = .ok 0) ∧
      (w.weatherCode = none →
        extractWeatherParameter (.current w) "weatherCode" true = .ok 0)) := by
  refine ⟨?_, ?_, ?_⟩
  · intro p hp w
    have hmem : p ∈ ["temperature", "humidity", "windSpeed", "windDirection",
        "precipitation.intensity", "precipitation.probability",
        "visibility", "uvIndex", "cloudCover", "pressure", "weatherCode"] := by
      simpa [isParameterSupported] using hp
    fin_cases hmem <;> exact ⟨_, rfl⟩
  · intro p hp f hne
    obtain ⟨ts, ivs⟩ := f
    cases ivs with
    | nil => simp at hne
    | cons iv rest =>
      have hmem : p ∈ ["temperature", "humidity", "windSpeed",
          "precipitation.intensity", "precipitation.probability",
          "uvIndex", "cloudCover", "weatherCode"] := by
        simpa [isParameterSupported] using hp
      fin_cases hmem <;> exact ⟨_, rfl⟩
  · intro w
    refine ⟨fun h => ?_, fun h => ?_, fun h => ?_, fun h => ?_⟩ <;>
      simp [extractWeatherParameter, extractFromCurrentWeather, h]

/-- Witness for C4's amended statement: `pressure` on a current record
without a pressure field extracts as `0`, and `humidity` on a one-interval
forecast extracts successfully. -/
theorem extraction_total_spec_witness :
    extractWeatherParameter
      (.current { temperature := 20, humidity := 50, windSpeed := 3,
                  windDirection := 90,
                  precipitation := { intensity := 0, probability := 0 },
                  visibility := 9000, uvIndex := none, cloudCover := none,
                  pressure := none, weatherCode := none })
      "pressure" true = .ok 0 ∧
    ∃ v, extractWeatherParameter
      (.forecast { timestep := .d1,
                   intervals := [{ temperature := 20, feelsLike := 19,
                                   humidity := 60, cloudCover := 30,
                                   precipitationChance := 40, windSpeed := 5,
                                   uvIndex := 2, weatherCode := 1000 }] })
      "humidity" false = .ok v :=
  ⟨(extraction_total_spec.2.2 _).2.2.1 rfl,
   extraction_total_spec.2.1 "humidity" (by decide) _ (by decide)⟩

/-! ## Grouping fold lemmas -/

theorem groupFold_getD (alerts : List WeatherAlert)
    (acc : List (String × List WeatherAlert)) (k : String) :
    (lookupKey (alerts.foldl groupStep acc) k).getD [] =
      (lookupKey acc k).getD [] ++
        alerts.filter (fun a => decide (createLocationKey a.location = .ok k)) := by
  induction alerts generalizing acc with
  | nil => simp
  | cons a rest ih =>
    simp only [List.foldl_cons]
    cases hkey : createLocationKey a.location with
    | error e =>
      have hpred : (decide (createLocationKey a.location = .ok k)) = false := by
        simp [hkey]
      simp [groupStep, hkey, ih, List.filter_cons, hpred]
    | ok k0 =>
      by_cases hk : k0 = k
      · subst hk
        have hpred : (decide (createLocationKey a.location = .ok k0)) = true := by
          simp [hkey]
        simp [groupStep, hkey, ih, lookupKey_insertGrouped,
          List.filter_cons, hpred]
      · have hpred : (decide (createLocationKey a.location = .ok k)) = false := by
          simp [hkey, hk]
        simp [groupStep, hkey, ih, lookupKey_insertGrouped, hk,
          List.filter_cons, hpred]

theorem groupFold_none (alerts : List WeatherAlert)
    (acc : List (String × List WeatherAlert)) (k : String) :
    lookupKey (alerts.foldl groupStep acc) k = none ↔
      lookupKey acc k = none ∧
      alerts.filter (fun a => decide (createLocationKey a.location = .ok k)) = [] := by
  induction alerts generalizing acc with
  | nil => simp
  | cons a rest ih =>
    simp only [List.foldl_cons]
    cases hkey : createLocationKey a.location with
    | error e =>
      have hpred : (decide (createLocationKey a.location = .ok k)) = false := by
        simp [hkey]
      simp [groupStep, hkey, ih, List.filter_cons, hpred]
    | ok k0 =>
      by_cases hk : k0 = k
      · subst hk
        have hpred : (decide (createLocationKey a.location = .ok k0)) = true := by
          simp [hkey]
        simp [groupStep, hkey, ih, lookupKey_insertGrouped,
          List.filter_cons, hpred]
      · have hpred : (decide (createLocationKey a.location = .ok k)) = false := by
          simp [hkey, hk]
        simp [groupStep, hkey, ih, lookupKey_insertGrouped, hk,
          List.filter_cons, hpred]

theorem groupFold_nodup_keys (alerts : List WeatherAlert)
    (acc : List (String × List WeatherAlert))
    (hnd : (acc.map Prod.fst).Nodup) :
    (((alerts.foldl groupStep acc)).map Prod.fst).Nodup := by
  induction alerts generalizing acc with
  | nil => exact hnd
  | cons a rest ih =>
    simp only [List.foldl_cons]
    cases hkey : createLocationKey a.location with
    | error e => exact ih _ (by simpa [groupStep, hkey] using hnd)
    | ok k0 =>
      refine ih _ ?_
      simp only [groupStep, hkey]
      exact nodup_keys_insertGrouped k0 a hnd

/-! ## C5 — grouping by location (corrected) -/

/-- Counterexample to C5 as stated: an alert whose latitude `999` is
outside the valid range of the repository's own Alert model and whose
city is absent is still grouped (under the key `"999,0"`), because
`createLocationKey` never range-checks coordinates — the claim says such
an alert appears in no group. -/
theorem groupAlertsByLocation_out_of_range_cx :
    ¬ latInRange 999 ∧
    (WeatherAlert.mk "a1" .realtime "temperature" ">" 30
        (LocationQuery.mk (some 999) (some 0) none) none).location.city
      = none ∧
    (groupAlertsByLocation
        [WeatherAlert.mk "a1" .realtime "temperature" ">" 30
          (LocationQuery.mk (some 999) (some 0) none) none]).map Prod.snd
      = [[WeatherAlert.mk "a1" .realtime "temperature" ">" 30
          (LocationQuery.mk (some 999) (some 0) none) none]] := by
  refine ⟨?_, rfl, by decide⟩
  intro h
  exact absurd h.2 (by norm_num)

/-- C5 as amended: grouping is a partition of exactly the alerts whose
location yields a key (`createLocationKey` succeeds — both coordinates
present, in range or not, or a non-empty city): group keys are pairwise
distinct, the group stored under `k` is exactly the subsequence of the
input whose key is `k` (so each such alert appears exactly once, in its
own group, in original relative order), every alert with a computable key
appears in its group, and every alert whose key computation throws
appears in no group. -/
theorem groupAlertsByLocation_spec (alerts : List WeatherAlert) :
    (((groupAlertsByLocation alerts)).map Prod.fst).Nodup ∧
    (∀ k g, (k, g) ∈ groupAlertsByLocation alerts →
      g = alerts.filter (fun a => decide (createLocationKey a.location = .ok k))) ∧
    (∀ a ∈ alerts, ∀ k, createLocationKey a.location = .ok k →
      ∃ g, (k, g) ∈ groupAlertsByLocation alerts ∧ a ∈ g) ∧
    (∀ a ∈ alerts, ∀ e, createLocationKey a.location = .error e →
      ∀ k g, (k, g) ∈ groupAlertsByLocation alerts → a ∉ g) := by
  have hnd : (((groupAlertsByLocation alerts)).map Prod.fst).Nodup :=
    groupFold_nodup_keys alerts [] (by simp)
  have hchar : ∀ k g, (k, g) ∈ groupAlertsByLocation alerts →
      g = alerts.filter (fun a => decide (createLocationKey a.location = .ok k)) := by
    intro k g hmem
    have hlk := lookupKey_of_mem_nodup hnd hmem
    unfold groupAlertsByLocation at hlk
    have hgd := groupFold_getD alerts [] k
    rw [hlk] at hgd
    simpa using hgd
  refine ⟨hnd, hchar, ?_, ?_⟩
  · intro a ha k hk
    have hmemf : a ∈ alerts.filter
        (fun a => decide (createLocationKey a.location = .ok k)) :=
      List.mem_filter.mpr ⟨ha, by simp [hk]⟩
    have hne : lookupKey (groupAlertsByLocation alerts) k ≠ none := by
      intro hnone
      have := (groupFold_none alerts [] k).mp (by simpa [groupAlertsByLocation] using hnone)
      rw [this.2] at hmemf
      simp at hmemf
    cases hlk : lookupKey (groupAlertsByLocation alerts) k with
    | none => exact absurd hlk hne
    | some g =>
      refine ⟨g, lookupKey_some_mem hlk, ?_⟩
      have := hchar k g (lookupKey_some_mem hlk)
      rw [this]
      exact hmemf
  · intro a ha e he k g hmem hag
    have := hchar k g hmem
    rw [this] at hag
    have := (List.mem_filter.mp hag).2
    simp [he] at this

/-- Witness for C5's amended statement: in a batch of one coordinate
alert and one `Cairo` alert, the city alert appears in the group stored
under the canonical key `cairo`. -/
theorem groupAlertsByLocation_spec_witness :
    ∃ g, ("cairo", g) ∈ groupAlertsByLocation
        [WeatherAlert.mk "b1" .realtime "temperature" ">" 30
            (LocationQuery.mk (some 30) (some 31) none) none,
         WeatherAlert.mk "b2" .realtime "humidity" "<" 20
            (LocationQuery.mk none none (some "Cairo")) none] ∧
      WeatherAlert.mk "b2" .realtime "humidity" "<" 20
          (LocationQuery.mk none none (some "Cairo")) none ∈ g :=
  (groupAlertsByLocation_spec _).2.2.1 _ (by decide) "cairo" (by decide)

/-! ## C6 — location-key canonicalisation (corrected) -/

/-- Counterexample to C6 as stated: two locations both carrying the city
`Paris`/`paris` (equal after lowercasing and trimming) get different keys
when one of them also carries coordinates, because coordinates take
precedence in `createLocationKey`. -/
theorem createLocationKey_city_coords_cx :
    jsTrim (jsToLower "Paris") = jsTrim (jsToLower "paris") ∧
    createLocationKey (LocationQuery.mk (some 1) (some 2) (some "Paris")) ≠
      createLocationKey (LocationQuery.mk none none (some "paris")) := by
  exact ⟨by decide, by decide⟩

/-- C6 as amended: two locations carrying the same coordinate pair map to
the same key; and two locations neither of which carries a complete
coordinate pair, carrying non-empty city names equal after lowercasing
and trimming, map to the same key.  (When one location has coordinates
and the other only a city, the keys may differ.) -/
theorem createLocationKey_agreement (l1 l2 : LocationQuery) :
    (∀ la lo, l1.lat = some la → l1.lon = some lo →
      l2.lat = some la → l2.lon = some lo →
      createLocationKey l1 = createLocationKey l2) ∧
    ((l1.lat = none ∨ l1.lon = none) → (l2.lat = none ∨ l2.lon = none) →
      ∀ c1 c2, l1.city = some c1 → l2.city = some c2 →
      c1 ≠ "" → c2 ≠ "" →
      jsTrim (jsToLower c1) = jsTrim (jsToLower c2) →
      createLocationKey l1 = createLocationKey l2) := by
  obtain ⟨la1, lo1, c1⟩ := l1
  obtain ⟨la2, lo2, c2⟩ := l2
  constructor
  · rintro la lo rfl rfl rfl rfl
    rfl
  · rintro h1 h2 city1 city2 rfl rfl hne1 hne2 heq
    have key1 : createLocationKey (LocationQuery.mk la1 lo1 (some city1)) =
        .ok (jsTrim (jsToLower city1)) := by
      rcases h1 with rfl | rfl
      · cases lo1 <;> simp [createLocationKey, hne1]
      · cases la1 <;> simp [createLocationKey, hne1]
    have key2 : createLocationKey (LocationQuery.mk la2 lo2 (some city2)) =
        .ok (jsTrim (jsToLower city2)) := by
      rcases h2 with rfl | rfl
      · cases lo2 <;> simp [createLocationKey, hne2]
      · cases la2 <;> simp [createLocationKey, hne2]
    rw [key1, key2, heq]

/-- Witness for C6's amended statement: `"  New YORK "` and `"new york"`
agree on the key `new york`, and two copies of the same coordinate pair
agree on the key `40,-74`. -/
theorem createLocationKey_agreement_witness :
    createLocationKey (LocationQuery.mk none none (some "  New YORK ")) =
      createLocationKey (LocationQuery.mk none (some 7) (some "new york")) ∧
    createLocationKey (LocationQuery.mk (some 40) (some (-74)) none) =
      createLocationKey (LocationQuery.mk (some 40) (some (-74)) (some "x")) :=
  ⟨(createLocationKey_agreement _ _).2 (Or.inl rfl) (Or.inl rfl)
      _ _ rfl rfl (by decide) (by decide) (by decide),
   (createLocationKey_agreement _ _).1 40 (-74) rfl rfl rfl rfl⟩


/-! ## Write-back lemmas -/

open scoped List

theorem groupByState_const_aux (st : AlertState)
    (updates : List AlertStateUpdate) (ids : List String)
    (h : ∀ u ∈ updates, u.newState = st) :
    updates.foldl (fun m u => insertGrouped m u.newState u.alertId)
        [(st, ids)] =
      [(st, ids ++ updates.map (·.alertId))] := by
  induction updates generalizing ids with
  | nil => simp
  | cons u rest ih =>
    have hu : u.newState = st := h u (List.mem_cons_self ..)
    have hstep : insertGrouped [(st, ids)] u.newState u.alertId =
        [(st, ids ++ [u.alertId])] := by
      rw [hu]
      simp [insertGrouped]
    rw [List.foldl_cons, hstep,
      ih _ (fun v hv => h v (List.mem_cons_of_mem _ hv))]
    simp

theorem groupByState_const (st : AlertState) (u : AlertStateUpdate)
    (rest : List AlertStateUpdate)
    (h : ∀ v ∈ u :: rest, v.newState = st) :
    groupByState (u :: rest) = [(st, (u :: rest).map (·.alertId))] := by
  have hu : u.newState = st := h u (List.mem_cons_self ..)
  have hstep : insertGrouped [] u.newState u.alertId = [(st, [u.alertId])] := by
    rw [hu]
    simp [insertGrouped]
  unfold groupByState
  rw [List.foldl_cons, hstep,
    groupByState_const_aux st rest [u.alertId]
      (fun v hv => h v (List.mem_cons_of_mem _ hv))]
  simp

theorem processBatch_char (oracle : PatchOracle) (st : String)
    (ids : List String) :
    processBatchUpdateResult (createBatchUpdateRequest oracle st ids).2 =
      (match oracle st ids with
       | .resolve body =>
         if body.success then
           (ids.take (((body.data).map (·.modifiedCount)).getD 0),
            ids.drop (((body.data).map (·.modifiedCount)).getD 0))
         else ([], ids)
       | .reject _ => ([], ids)) := by
  cases h : oracle st ids with
  | resolve body =>
    by_cases hb : body.success = true <;>
      simp [createBatchUpdateRequest, processBatchUpdateResult, h, hb]
  | reject msg =>
    simp [createBatchUpdateRequest, processBatchUpdateResult, h]

theorem flatMap_append_interchange {α β : Type} (l : List α)
    (f g : α → List β) :
    ((l.flatMap f) ++ (l.flatMap g)) ~ (l.flatMap fun x => f x ++ g x) := by
  induction l with
  | nil => simp
  | cons a rest ih =>
    simp only [List.flatMap_cons]
    calc (f a ++ rest.flatMap f) ++ (g a ++ rest.flatMap g)
        = f a ++ ((rest.flatMap f ++ g a) ++ rest.flatMap g) := by
          simp [List.append_assoc]
      _ ~ f a ++ ((g a ++ rest.flatMap f) ++ rest.flatMap g) :=
          (List.perm_append_comm.append_right _).append_left _
      _ = (f a ++ g a) ++ (rest.flatMap f ++ rest.flatMap g) := by
          simp [List.append_assoc]
      _ ~ (f a ++ g a) ++ rest.flatMap (fun x => f x ++ g x) :=
          ih.append_left _

theorem flatVals_insertGrouped {κ β : Type} [DecidableEq κ]
    (m : List (κ × List β)) (k : κ) (v : β) :
    ((insertGrouped m k v).flatMap Prod.snd) ~ (m.flatMap Prod.snd ++ [v]) := by
  induction m with
  | nil => simp [insertGrouped]
  | cons p rest ih =>
    obtain ⟨k₀, l₀⟩ := p
    by_cases h0 : k₀ = k
    · subst h0
      have hstep : insertGrouped ((k₀, l₀) :: rest) k₀ v =
          (k₀, l₀ ++ [v]) :: rest := by
        simp [insertGrouped]
      rw [hstep]
      simp only [List.flatMap_cons]
      calc (l₀ ++ [v]) ++ rest.flatMap Prod.snd
          = l₀ ++ ([v] ++ rest.flatMap Prod.snd) := by simp [List.append_assoc]
        _ ~ l₀ ++ (rest.flatMap Prod.snd ++ [v]) :=
            List.perm_append_comm.append_left _
        _ = (l₀ ++ rest.flatMap Prod.snd) ++ [v] := by simp [List.append_assoc]
    · have hstep : insertGrouped ((k₀, l₀) :: rest) k v =
          (k₀, l₀) :: insertGrouped rest k v := by
        simp [insertGrouped, h0]
      rw [hstep]
      simp only [List.flatMap_cons]
      calc l₀ ++ (insertGrouped rest k v).flatMap Prod.snd
          ~ l₀ ++ (rest.flatMap Prod.snd ++ [v]) := ih.append_left _
        _ = (l₀ ++ rest.flatMap Prod.snd) ++ [v] := by simp [List.append_assoc]

theorem groupByState_flat_perm_aux (updates : List AlertStateUpdate)
    (acc : List (AlertState × List String)) :
    ((updates.foldl (fun m u => insertGrouped m u.newState u.alertId)
        acc).flatMap Prod.snd) ~
      (acc.flatMap Prod.snd ++ updates.map (·.alertId)) := by
  induction updates generalizing acc with
  | nil => simp
  | cons u rest ih =>
    rw [List.foldl_cons, List.map_cons]
    calc ((rest.foldl (fun m u => insertGrouped m u.newState u.alertId)
            (insertGrouped acc u.newState u.alertId)).flatMap Prod.snd)
        ~ (insertGrouped acc u.newState u.alertId).flatMap Prod.snd ++
            rest.map (·.alertId) := ih _
      _ ~ (acc.flatMap Prod.snd ++ [u.alertId]) ++ rest.map (·.alertId) :=
          (flatVals_insertGrouped acc u.newState u.alertId).append_right _
      _ = acc.flatMap Prod.snd ++ (u.alertId :: rest.map (·.alertId)) := by
          simp [List.append_assoc]

theorem groupByState_flat_perm (updates : List AlertStateUpdate) :
    ((groupByState updates).flatMap Prod.snd) ~ (updates.map (·.alertId)) := by
  simpa using groupByState_flat_perm_aux updates []


theorem updateMultiAlerts_trace (oracle : PatchOracle)
    (updates : List AlertStateUpdate) (hne : updates.isEmpty = false) :
    (updateMultiAlerts oracle updates).1 =
      (groupByState updates).map
        (fun g => NetCall.bulkUpdate (stateString g.1) g.2) := by
  unfold updateMultiAlerts
  rw [if_neg (by simp [hne])]
  simp only [List.flatMap_map]
  induction groupByState updates with
  | nil => rfl
  | cons g rest ih =>
    simp only [createBatchUpdateRequest] at ih
    simp [createBatchUpdateRequest, ih]

theorem updateMultiAlerts_succ (oracle : PatchOracle)
    (updates : List AlertStateUpdate) (hne : updates.isEmpty = false) :
    (updateMultiAlerts oracle updates).2.successfulUpdates =
      (groupByState updates).flatMap (fun g =>
        (processBatchUpdateResult
          (createBatchUpdateRequest oracle (stateString g.1) g.2).2).1) := by
  unfold updateMultiAlerts
  rw [if_neg (by simp [hne])]
  simp only [List.map_map, List.flatMap_map]
  rfl

theorem updateMultiAlerts_failed (oracle : PatchOracle)
    (updates : List AlertStateUpdate) (hne : updates.isEmpty = false) :
    (updateMultiAlerts oracle updates).2.failedUpdates =
      (groupByState updates).flatMap (fun g =>
        (processBatchUpdateResult
          (createBatchUpdateRequest oracle (stateString g.1) g.2).2).2) := by
  unfold updateMultiAlerts
  rw [if_neg (by simp [hne])]
  simp only [List.map_map, List.flatMap_map]
  rfl

theorem updateMultiAlerts_success_flag (oracle : PatchOracle)
    (updates : List AlertStateUpdate) :
    (updateMultiAlerts oracle updates).2.success = true ↔
      (updateMultiAlerts oracle updates).2.failedUpdates = [] := by
  by_cases hne : updates.isEmpty
  · unfold updateMultiAlerts
    rw [if_pos hne]
    simp
  · have hne' : updates.isEmpty = false := by simpa using hne
    unfold updateMultiAlerts
    rw [if_neg (by simp [hne'])]
    simp only [beq_iff_eq, List.length_eq_zero]

theorem updateAlertStates_none (oracle : PatchOracle)
    (results : List (String × AlertState))
    (h : triggeredPairs results = []) :
    updateAlertStates oracle results = ([], none) := by
  unfold updateAlertStates
  by_cases hemp : results.isEmpty = true
  · rw [if_pos hemp]
  · rw [if_neg hemp, if_pos (by simp [h])]

theorem updateAlertStates_some (oracle : PatchOracle)
    (results : List (String × AlertState))
    (h : triggeredPairs results ≠ []) :
    updateAlertStates oracle results =
      ((updateMultiAlerts oracle ((triggeredPairs results).map
          (fun e => AlertStateUpdate.mk e.1 e.2))).1,
       some (updateMultiAlerts oracle ((triggeredPairs results).map
          (fun e => AlertStateUpdate.mk e.1 e.2))).2) := by
  have hres : results ≠ [] := by
    intro hr
    exact h (by simp [hr, triggeredPairs])
  unfold updateAlertStates
  rw [if_neg (by simpa using hres), if_neg (by simpa using h)]

theorem triggeredPairs_state {results : List (String × AlertState)}
    {e : String × AlertState} (he : e ∈ triggeredPairs results) :
    e.2 = .triggered := by
  have := (List.mem_filter.mp he).2
  simpa using this

theorem groupByState_triggered (results : List (String × AlertState))
    (p : String × AlertState) (rest : List (String × AlertState))
    (h : triggeredPairs results = p :: rest) :
    groupByState ((triggeredPairs results).map
        (fun e => AlertStateUpdate.mk e.1 e.2)) =
      [(.triggered, (triggeredPairs results).map Prod.fst)] := by
  rw [h, List.map_cons]
  rw [groupByState_const .triggered _ _ ?hall]
  · simp [List.map_map]
  case hall =>
    intro v hv
    rcases List.mem_cons.mp hv with hv1 | hv2
    · subst hv1
      have hp : p ∈ triggeredPairs results := by
        rw [h]
        exact List.mem_cons_self ..
      exact triggeredPairs_state hp
    · obtain ⟨e, he, rfl⟩ := List.mem_map.mp hv2
      have hmem : e ∈ triggeredPairs results := by
        rw [h]
        exact List.mem_cons_of_mem _ he
      exact triggeredPairs_state hmem

/-! ## C8 — write-back sends only triggered ids -/

/-- C8: the write-back path issues exactly one bulk call carrying
precisely the ids whose new state is `triggered` (in result order), and
issues no network call at all when the result map is empty or every
result is `not_triggered`. -/
theorem updateAlertStates_spec (oracle : PatchOracle)
    (evaluationResults : List (String × AlertState)) :
    ((updateAlertStates oracle evaluationResults).1 =
      if triggeredPairs evaluationResults = [] then []
      else [NetCall.bulkUpdate "triggered"
              ((triggeredPairs evaluationResults).map Prod.fst)]) ∧
    ((∀ e ∈ evaluationResults, e.2 = .not_triggered) →
      (updateAlertStates oracle evaluationResults).1 = []) := by
  have main : (updateAlertStates oracle evaluationResults).1 =
      if triggeredPairs evaluationResults = [] then []
      else [NetCall.bulkUpdate "triggered"
              ((triggeredPairs evaluationResults).map Prod.fst)] := by
    cases ht : triggeredPairs evaluationResults with
    | nil => rw [updateAlertStates_none oracle _ ht, if_pos rfl]
    | cons p rest =>
      have hcond : ¬(triggeredPairs evaluationResults = []) := by
        rw [ht]
        simp
      rw [updateAlertStates_some oracle _ hcond,
        if_neg (List.cons_ne_nil p rest)]
      have hne : ((triggeredPairs evaluationResults).map
          (fun e => AlertStateUpdate.mk e.1 e.2)).isEmpty = false := by
        rw [ht]
        simp
      rw [updateMultiAlerts_trace _ _ hne,
        groupByState_triggered evaluationResults p rest ht]
      simp [stateString, ht]
  refine ⟨main, fun hall => ?_⟩
  have ht : triggeredPairs evaluationResults = [] := by
    unfold triggeredPairs
    rw [List.filter_eq_nil_iff]
    intro e he
    simp [hall e he]
  rw [main, if_pos ht]

/-- Witness for C8: an all-`not_triggered` result map produces zero
network calls. -/
theorem updateAlertStates_spec_witness :
    (updateAlertStates
        (fun _ _ => .resolve { success := true,
                               data := some { modifiedCount := 1,
                                              matchedCount := 1 } })
        [("a1", AlertState.not_triggered),
         ("a2", AlertState.not_triggered)]).1 = [] :=
  (updateAlertStates_spec _ _).2 (by decide)

/-! ## C9 — batch transport failure and the per-item fallback (corrected) -/

theorem indivFold (oracle : PutOracle) (l : List (String × AlertState))
    (acc : List NetCall × Nat × Nat) :
    ((l.foldl (indivStep oracle) acc).1 =
      acc.1 ++ l.map (fun e => NetCall.putAlert e.1 e.2)) ∧
    ((l.foldl (indivStep oracle) acc).2.1 +
        (l.foldl (indivStep oracle) acc).2.2 =
      acc.2.1 + acc.2.2 + l.length) := by
  induction l generalizing acc with
  | nil => simp
  | cons e rest ih =>
    rw [List.foldl_cons]
    obtain ⟨ih1, ih2⟩ := ih (indivStep oracle acc e)
    constructor
    · rw [ih1]
      by_cases hr : (updateAlertState oracle e.1 e.2).2 <;>
        simp [indivStep, updateAlertState, hr, List.append_assoc]
    · rw [ih2]
      by_cases hr : (updateAlertState oracle e.1 e.2).2 <;>
        simp [indivStep, hr] <;> omega

theorem updateMultiAlerts_reject (oracle : PatchOracle)
    (results : List (String × AlertState)) (msg : String)
    (p : String × AlertState) (rest : List (String × AlertState))
    (ht : triggeredPairs results = p :: rest)
    (hrej : oracle "triggered" ((triggeredPairs results).map Prod.fst) =
      .reject msg) :
    updateMultiAlerts oracle ((triggeredPairs results).map
        (fun e => AlertStateUpdate.mk e.1 e.2)) =
      ([NetCall.bulkUpdate "triggered"
          ((triggeredPairs results).map Prod.fst)],
       { success := false, successfulUpdates := [],
         failedUpdates := (triggeredPairs results).map Prod.fst }) := by
  have hmapne : ((triggeredPairs results).map
      (fun e => AlertStateUpdate.mk e.1 e.2)).isEmpty = false := by
    rw [ht]
    simp
  have hgrp := groupByState_triggered results p rest ht
  have htrace := updateMultiAlerts_trace oracle _ hmapne
  have hsucc := updateMultiAlerts_succ oracle
    ((triggeredPairs results).map (fun e => AlertStateUpdate.mk e.1 e.2))
    hmapne
  have hfail := updateMultiAlerts_failed oracle
    ((triggeredPairs results).map (fun e => AlertStateUpdate.mk e.1 e.2))
    hmapne
  rw [hgrp] at htrace hsucc hfail
  simp only [List.flatMap_cons, List.flatMap_nil, List.append_nil,
    List.map_cons, List.map_nil] at htrace hsucc hfail
  rw [processBatch_char] at hsucc hfail
  rw [show stateString AlertState.triggered = "triggered" from rfl]
    at htrace hsucc hfail
  rw [hrej] at hsucc hfail
  simp only [] at hsucc hfail
  have hflag : (updateMultiAlerts oracle ((triggeredPairs results).map
      (fun e => AlertStateUpdate.mk e.1 e.2))).2.success = false := by
    cases hb : (updateMultiAlerts oracle ((triggeredPairs results).map
        (fun e => AlertStateUpdate.mk e.1 e.2))).2.success with
    | false => rfl
    | true =>
      exfalso
      have := (updateMultiAlerts_success_flag oracle _).mp hb
      rw [hfail, ht] at this
      simp at this
  have heta : (updateMultiAlerts oracle ((triggeredPairs results).map
      (fun e => AlertStateUpdate.mk e.1 e.2))).2 =
      { success := (updateMultiAlerts oracle ((triggeredPairs results).map
          (fun e => AlertStateUpdate.mk e.1 e.2))).2.success,
        successfulUpdates := (updateMultiAlerts oracle
          ((triggeredPairs results).map
            (fun e => AlertStateUpdate.mk e.1 e.2))).2.successfulUpdates,
        failedUpdates := (updateMultiAlerts oracle
          ((triggeredPairs results).map
            (fun e => AlertStateUpdate.mk e.1 e.2))).2.failedUpdates } := rfl
  have hpair : updateMultiAlerts oracle ((triggeredPairs results).map
      (fun e => AlertStateUpdate.mk e.1 e.2)) =
      ((updateMultiAlerts oracle ((triggeredPairs results).map
          (fun e => AlertStateUpdate.mk e.1 e.2))).1,
       (updateMultiAlerts oracle ((triggeredPairs results).map
          (fun e => AlertStateUpdate.mk e.1 e.2))).2) := rfl
  rw [hpair, htrace, heta, hflag, hsucc, hfail]

/-- Counterexample to C9 as stated: with a bulk PATCH that fails at the
transport level (the oracle rejects), the orchestrator performs no
per-item fallback call at all — the trace holds only the bulk call and
the batch is reported as entirely failed.  The claim says a transport
failure produces exactly one per-item `PUT` per triggered id. -/
theorem batch_transport_failure_cx :
    updateAlertStates (fun _ _ => .reject "ECONNREFUSED")
        [("a1", AlertState.triggered)] =
      ([NetCall.bulkUpdate "triggered" ["a1"]],
       some { success := false, successfulUpdates := [],
              failedUpdates := ["a1"] }) ∧
    NetCall.putAlert "a1" .triggered ∉
      (updateAlertStates (fun _ _ => .reject "ECONNREFUSED")
        [("a1", AlertState.triggered)]).1 := by
  exact ⟨by decide, by decide⟩

/-- C9 as amended: a transport-level failure of the batched PATCH is
absorbed inside `createBatchUpdateRequest` and reported as an entirely
failed batch — the orchestrator issues the one bulk call and no per-item
fallback call (the `catch`-driven fallback is reachable only from a
rejection of `updateMultiAlerts`, which never rejects).  The per-item
fallback function itself, when invoked, performs exactly one pass of one
independent `PUT` call per triggered alert id, accounting every item as a
success or a failure (no item cancels the others), with no retry. -/
theorem batch_transport_no_fallback_spec :
    (∀ (oracle : PatchOracle) (results : List (String × AlertState))
       (msg : String),
      triggeredPairs results ≠ [] →
      oracle "triggered" ((triggeredPairs results).map Prod.fst) =
        .reject msg →
      updateAlertStates oracle results =
        ([NetCall.bulkUpdate "triggered"
            ((triggeredPairs results).map Prod.fst)],
         some { success := false, successfulUpdates := [],
                failedUpdates := (triggeredPairs results).map Prod.fst })) ∧
    (∀ (oracle : PutOracle) (results : List (String × AlertState)),
      (updateAlertStatesIndividually oracle results).1 =
        (triggeredPairs results).map (fun e => NetCall.putAlert e.1 e.2) ∧
      (updateAlertStatesIndividually oracle results).2.1 +
          (updateAlertStatesIndividually oracle results).2.2 =
        (triggeredPairs results).length) := by
  constructor
  · intro oracle results msg hne hrej
    cases ht : triggeredPairs results with
    | nil => exact absurd ht hne
    | cons p rest =>
      have hcond : ¬(triggeredPairs results = []) := by
        rw [ht]
        simp
      rw [updateAlertStates_some oracle _ hcond,
        updateMultiAlerts_reject oracle results msg p rest ht hrej]
      rw [ht]
  · intro oracle results
    unfold updateAlertStatesIndividually
    by_cases hemp : (triggeredPairs results).isEmpty = true
    · have h0 : triggeredPairs results = [] := by simpa using hemp
      rw [if_pos hemp, h0]
      simp
    · rw [if_neg hemp]
      have h := indivFold oracle (triggeredPairs results) ([], 0, 0)
      exact ⟨by simpa using h.1, by simpa using h.2⟩

/-- Witness for C9's amended statement: one triggered id, rejecting PATCH
oracle — the trace is the single bulk call, the result all-failed; the
fallback function on the same results issues exactly the one `PUT`. -/
theorem batch_transport_no_fallback_spec_witness :
    updateAlertStates (fun _ _ => .reject "boom")
        [("a1", AlertState.triggered)] =
      ([NetCall.bulkUpdate "triggered" ["a1"]],
       some { success := false, successfulUpdates := [],
              failedUpdates := ["a1"] }) ∧
    (updateAlertStatesIndividually (fun _ _ => .error "boom")
        [("a1", AlertState.triggered)]).1 =
      [NetCall.putAlert "a1" .triggered] := by
  constructor
  · have h := batch_transport_no_fallback_spec.1
      (fun _ _ => .reject "boom") [("a1", AlertState.triggered)] "boom"
      (by decide) (by decide)
    simpa using h
  · have h := (batch_transport_no_fallback_spec.2
      (fun _ _ => .error "boom") [("a1", AlertState.triggered)]).1
    simpa using h

/-! ## C10 — updateMultiAlerts partitions the input ids -/

theorem flatMap_congr_mem {α β : Type} {l : List α} {f g : α → List β}
    (h : ∀ a ∈ l, f a = g a) : l.flatMap f = l.flatMap g := by
  induction l with
  | nil => rfl
  | cons a rest ih =>
    simp only [List.flatMap_cons]
    rw [h a (List.mem_cons_self ..), ih (fun b hb => h b (List.mem_cons_of_mem _ hb))]

/-- C10: on an empty input `updateMultiAlerts` makes no remote call and
returns success with both lists empty; on any input, the reported
successful ids are, per state batch, the first `modifiedCount` ids of the
batch's request list when the batch resolves with a success body (all
batch ids failed otherwise/on rejection), the failed ids are the
remainders, successful and failed ids together partition exactly the
input alert ids, and the `success` flag is true iff `failedUpdates` is
empty. -/
theorem updateMultiAlerts_spec (oracle : PatchOracle)
    (updates : List AlertStateUpdate) :
    (updates = [] →
      updateMultiAlerts oracle updates =
        ([], { success := true, successfulUpdates := [],
               failedUpdates := [] })) ∧
    (updates ≠ [] →
      (updateMultiAlerts oracle updates).2.successfulUpdates =
        (groupByState updates).flatMap (fun g =>
          match oracle (stateString g.1) g.2 with
          | .resolve body =>
            if body.success then
              g.2.take (((body.data).map (·.modifiedCount)).getD 0)
            else []
          | .reject _ => []) ∧
      (updateMultiAlerts oracle updates).2.failedUpdates =
        (groupByState updates).flatMap (fun g =>
          match oracle (stateString g.1) g.2 with
          | .resolve body =>
            if body.success then
              g.2.drop (((body.data).map (·.modifiedCount)).getD 0)
            else g.2
          | .reject _ => g.2)) ∧
    (((updateMultiAlerts oracle updates).2.successfulUpdates ++
        (updateMultiAlerts oracle updates).2.failedUpdates) ~
      (updates.map (·.alertId))) ∧
    ((updateMultiAlerts oracle updates).2.success = true ↔
      (updateMultiAlerts oracle updates).2.failedUpdates = []) := by
  have hsucc_eq : updates ≠ [] →
      (updateMultiAlerts oracle updates).2.successfulUpdates =
        (groupByState updates).flatMap (fun g =>
          match oracle (stateString g.1) g.2 with
          | .resolve body =>
            if body.success then
              g.2.take (((body.data).map (·.modifiedCount)).getD 0)
            else []
          | .reject _ => []) := by
    intro hne
    rw [updateMultiAlerts_succ oracle updates (by simpa using hne)]
    refine flatMap_congr_mem (fun g _ => ?_)
    rw [processBatch_char]
    cases oracle (stateString g.1) g.2 with
    | resolve body => by_cases hb : body.success = true <;> simp [hb]
    | reject m => rfl
  have hfail_eq : updates ≠ [] →
      (updateMultiAlerts oracle updates).2.failedUpdates =
        (groupByState updates).flatMap (fun g =>
          match oracle (stateString g.1) g.2 with
          | .resolve body =>
            if body.success then
              g.2.drop (((body.data).map (·.modifiedCount)).getD 0)
            else g.2
          | .reject _ => g.2) := by
    intro hne
    rw [updateMultiAlerts_failed oracle updates (by simpa using hne)]
    refine flatMap_congr_mem (fun g _ => ?_)
    rw [processBatch_char]
    cases oracle (stateString g.1) g.2 with
    | resolve body => by_cases hb : body.success = true <;> simp [hb]
    | reject m => rfl
  refine ⟨fun h => by subst h; rfl, fun hne => ⟨hsucc_eq hne, hfail_eq hne⟩,
    ?_, updateMultiAlerts_success_flag oracle updates⟩
  by_cases hne : updates = []
  · subst hne
    simp [updateMultiAlerts]
  · rw [hsucc_eq hne, hfail_eq hne]
    calc ((groupByState updates).flatMap _ ++ (groupByState updates).flatMap _)
        ~ (groupByState updates).flatMap (fun g =>
            (match oracle (stateString g.1) g.2 with
             | .resolve body =>
               if body.success then
                 g.2.take (((body.data).map (·.modifiedCount)).getD 0)
               else []
             | .reject _ => []) ++
            (match oracle (stateString g.1) g.2 with
             | .resolve body =>
               if body.success then
                 g.2.drop (((body.data).map (·.modifiedCount)).getD 0)
               else g.2
             | .reject _ => g.2)) := flatMap_append_interchange ..
      _ = (groupByState updates).flatMap Prod.snd := by
          refine flatMap_congr_mem (fun g _ => ?_)
          cases oracle (stateString g.1) g.2 with
          | resolve body =>
            by_cases hb : body.success = true <;>
              simp [hb, List.take_append_drop]
          | reject m => rfl
      _ ~ updates.map (·.alertId) := groupByState_flat_perm updates

/-- Witness for C10 at concrete inputs: the empty input makes no call and
reports clean success; a two-id triggered batch whose response reports
`modifiedCount = 1` splits into first id successful, second failed. -/
theorem updateMultiAlerts_spec_witness :
    updateMultiAlerts
        (fun _ _ => .resolve { success := true,
                               data := some { modifiedCount := 1,
                                              matchedCount := 2 } }) [] =
      ([], { success := true, successfulUpdates := [],
             failedUpdates := [] }) ∧
    (updateMultiAlerts
        (fun _ _ => .resolve { success := true,
                               data := some { modifiedCount := 1,
                                              matchedCount := 2 } })
        [{ alertId := "a1", newState := .triggered },
         { alertId := "a2", newState := .triggered }]).2.successfulUpdates =
      ["a1"] := by
  constructor
  · exact (updateMultiAlerts_spec _ _).1 rfl
  · have h := ((updateMultiAlerts_spec
      (fun _ _ => .resolve { success := true,
                             data := some { modifiedCount := 1,
                                            matchedCount := 2 } })
      [{ alertId := "a1", newState := .triggered },
       { alertId := "a2", newState := .triggered }]).2.1 (by decide)).1
    rw [h]
    decide

/-! ## C7 — weather-map key lemmas -/

theorem string_data_inj {s t : String} (h : s.data = t.data) : s = t := by
  cases s with
  | mk d1 =>
    cases t with
    | mk d2 => exact congrArg String.mk h

theorem realtimeKey_inj {x y : String} (h : realtimeKey x = realtimeKey y) :
    x = y := by
  have hd := congrArg String.data h
  simp only [realtimeKey, String.data_append] at hd
  exact string_data_inj (List.append_cancel_left hd)

theorem realtimeKey_ne_forecastKey (x y : String) (ts : Timestep) :
    realtimeKey x ≠ forecastKey ts y := by
  intro h
  have hd := congrArg String.data h
  cases ts <;>
    simp only [realtimeKey, forecastKey, tsString, String.data_append] at hd <;>
    simp at hd

theorem forecastKey_inj {ts ts' : Timestep} {x y : String}
    (h : forecastKey ts x = forecastKey ts' y) : ts = ts' ∧ x = y := by
  have hd := congrArg String.data h
  cases ts <;> cases ts' <;>
    simp only [forecastKey, tsString, String.data_append] at hd
  · exact ⟨rfl, string_data_inj (by simpa using hd)⟩
  · exfalso
    simp at hd
  · exfalso
    simp at hd
  · exact ⟨rfl, string_data_inj (by simpa using hd)⟩

theorem candidateKeys_disjoint {lk lk' : String}
    {las las' : List WeatherAlert} (hne : lk ≠ lk') {k : String}
    (h : k ∈ candidateKeys (lk, las)) : k ∉ candidateKeys (lk', las') := by
  intro h'
  rcases List.mem_cons.mp h with rfl | hf
  · rcases List.mem_cons.mp h' with he | hf'
    · exact hne (realtimeKey_inj he.symm).symm
    · obtain ⟨ts, _, hts⟩ := List.mem_map.mp hf'
      exact realtimeKey_ne_forecastKey lk lk' ts hts.symm
  · obtain ⟨ts, _, rfl⟩ := List.mem_map.mp hf
    rcases List.mem_cons.mp h' with he | hf'
    · exact realtimeKey_ne_forecastKey lk' lk ts he.symm
    · obtain ⟨ts', _, hts⟩ := List.mem_map.mp hf'
      exact hne ((forecastKey_inj hts).2.symm)

theorem mem_uniqueList {α : Type} [DecidableEq α] {x : α} :
    ∀ {l seen : List α}, x ∈ uniqueList seen l → x ∈ l ∧ x ∉ seen := by
  intro l
  induction l with
  | nil => intro seen h; simp [uniqueList] at h
  | cons a rest ih =>
    intro seen h
    unfold uniqueList at h
    by_cases ha : a ∈ seen
    · rw [if_pos ha] at h
      obtain ⟨h1, h2⟩ := ih h
      exact ⟨List.mem_cons_of_mem _ h1, h2⟩
    · rw [if_neg ha] at h
      rcases List.mem_cons.mp h with rfl | h'
      · exact ⟨List.mem_cons_self .., ha⟩
      · obtain ⟨h1, h2⟩ := ih h'
        refine ⟨List.mem_cons_of_mem _ h1, fun hs => h2 ?_⟩
        exact List.mem_cons_of_mem _ hs

theorem uniqueList_nodup {α : Type} [DecidableEq α] :
    ∀ (l seen : List α), (uniqueList seen l).Nodup := by
  intro l
  induction l with
  | nil => intro seen; simp [uniqueList]
  | cons a rest ih =>
    intro seen
    unfold uniqueList
    by_cases ha : a ∈ seen
    · rw [if_pos ha]
      exact ih seen
    · rw [if_neg ha]
      refine List.nodup_cons.mpr ⟨fun hmem => ?_, ih (a :: seen)⟩
      exact (mem_uniqueList hmem).2 (List.mem_cons_self ..)

theorem groupTimesteps_nodup (las : List WeatherAlert) :
    (groupTimesteps las).Nodup :=
  uniqueList_nodup _ []

theorem groupTimesteps_needsForecast {las : List WeatherAlert}
    {ts : Timestep} (h : ts ∈ groupTimesteps las) :
    las.any (fun a => decide (a.type = .forecast)) = true := by
  have h1 := (mem_uniqueList h).1
  obtain ⟨a, ha, _⟩ := List.mem_map.mp h1
  have := List.mem_filter.mp ha
  exact List.any_eq_true.mpr ⟨a, this.1, this.2⟩

theorem lookupKey_evalStep_ne (wmap : List (String × WRecord))
    (acc : List (String × AlertState)) (b : WeatherAlert) {id : String}
    (hne : b._id ≠ id) :
    lookupKey (evalStep wmap acc b) id = lookupKey acc id := by
  cases hwk : weatherDataKey b with
  | error e => simp [evalStep, hwk, lookupKey_setEntry, hne]
  | ok key =>
    cases hlk : lookupKey wmap key with
    | none => simp [evalStep, hwk, hlk, lookupKey_setEntry, hne]
    | some wd => simp [evalStep, hwk, hlk, lookupKey_setEntry, hne]

theorem evalFold_preserve (wmap : List (String × WRecord))
    (l : List WeatherAlert) (acc : List (String × AlertState)) {id : String}
    (h : ∀ b ∈ l, b._id ≠ id) :
    lookupKey (l.foldl (evalStep wmap) acc) id = lookupKey acc id := by
  induction l generalizing acc with
  | nil => rfl
  | cons b rest ih =>
    rw [List.foldl_cons,
      ih _ (fun c hc => h c (List.mem_cons_of_mem _ hc)),
      lookupKey_evalStep_ne wmap acc b (h b (List.mem_cons_self ..))]

theorem lookupKey_evalStep_self (wmap : List (String × WRecord))
    (acc : List (String × AlertState)) (b : WeatherAlert) :
    lookupKey (evalStep wmap acc b) b._id =
      some (match weatherDataKey b with
            | .error _ => .not_triggered
            | .ok key =>
              match lookupKey wmap key with
              | none => .not_triggered
              | some wd => evaluateAlert b wd) := by
  cases hwk : weatherDataKey b with
  | error e => simp [evalStep, hwk, lookupKey_setEntry]
  | ok key =>
    cases hlk : lookupKey wmap key with
    | none => simp [evalStep, hwk, hlk, lookupKey_setEntry]
    | some wd => simp [evalStep, hwk, hlk, lookupKey_setEntry]

theorem evalFold_lookup (wmap : List (String × WRecord)) :
    ∀ (alerts : List WeatherAlert) (acc : List (String × AlertState))
      (a : WeatherAlert), a ∈ alerts → (alerts.map (·._id)).Nodup →
    lookupKey (alerts.foldl (evalStep wmap) acc) a._id =
      some (match weatherDataKey a with
            | .error _ => .not_triggered
            | .ok key =>
              match lookupKey wmap key with
              | none => .not_triggered
              | some wd => evaluateAlert a wd) := by
  intro alerts
  induction alerts with
  | nil => intro acc a ha; simp at ha
  | cons b rest ih =>
    intro acc a ha hnd
    simp only [List.map_cons, List.nodup_cons] at hnd
    rcases List.mem_cons.mp ha with rfl | ha'
    · rw [List.foldl_cons,
        evalFold_preserve wmap rest _ (fun c hc hceq => hnd.1 ?_),
        lookupKey_evalStep_self]
      exact List.mem_map.mpr ⟨c, hc, hceq⟩
    · exact ih _ a ha' hnd.2

theorem forecastFold_fresh (fc : ForecastOracle) (loc : LocationQuery)
    (lk : String) :
    ∀ (tss : List Timestep) (m : List (String × WRecord)), tss.Nodup →
      (∀ ts ∈ tss, lookupKey m (forecastKey ts lk) = none) →
      tss.foldl (forecastFetchStep fc loc lk) m =
        m ++ tss.flatMap (forecastEntry fc loc lk) := by
  intro tss
  induction tss with
  | nil => intro m _ _; simp
  | cons ts rest ih =>
    intro m hnd hfresh
    rw [List.foldl_cons, List.flatMap_cons]
    have hstep : forecastFetchStep fc loc lk m ts =
        m ++ forecastEntry fc loc lk ts := by
      cases hfc : fc loc ts with
      | ok d =>
        simp [forecastFetchStep, forecastEntry, hfc,
          hfresh ts (List.mem_cons_self ..)]
      | error e => simp [forecastFetchStep, forecastEntry, hfc]
    rw [hstep, ih (m ++ forecastEntry fc loc lk ts)
      (List.nodup_cons.mp hnd).2 ?fresh, List.append_assoc]
    case fresh =>
      intro ts' hts'
      have hne_ts : ts ≠ ts' := by
        intro h
        exact (List.nodup_cons.mp hnd).1 (h ▸ hts')
      have hkeyne : forecastKey ts lk ≠ forecastKey ts' lk :=
        fun h => hne_ts (forecastKey_inj h).1
      rw [lookupKey_append, hfresh ts' (List.mem_cons_of_mem _ hts')]
      cases hfc : fc loc ts with
      | ok d => simp [forecastEntry, hfc, lookupKey_cons, lookupKey_nil, hkeyne]
      | error e => simp [forecastEntry, hfc, lookupKey_nil]

theorem fetchStep_fresh (rt : RealtimeOracle) (fc : ForecastOracle)
    (m : List (String × WRecord)) (g : String × List WeatherAlert)
    (hfresh : ∀ k ∈ candidateKeys g, lookupKey m k = none) :
    fetchStep rt fc m g = m ++ groupEntries rt fc g := by
  obtain ⟨lk, las⟩ := g
  cases las with
  | nil => simp [fetchStep, groupEntries]
  | cons sample rest =>
    have hrt : lookupKey m (realtimeKey lk) = none :=
      hfresh _ (List.mem_cons_self ..)
    have hm1 : (if (sample :: rest).any (fun a => decide (a.type = .realtime))
          then
            match rt sample.location with
            | .ok data =>
              if (lookupKey m (realtimeKey lk)).isSome then m
              else m ++ [(realtimeKey lk, .current data)]
            | .error _ => m
          else m) =
        m ++ (if (sample :: rest).any (fun a => decide (a.type = .realtime))
          then
            match rt sample.location with
            | .ok data => [(realtimeKey lk, WRecord.current data)]
            | .error _ => []
          else []) := by
      by_cases hRT : (sample :: rest).any (fun a => decide (a.type = .realtime)) = true
      · cases hro : rt sample.location with
        | ok d => simp [hRT, hro, hrt]
        | error e => simp [hRT, hro]
      · simp [hRT]
    show (let locationKey := lk
          let needsRealtime :=
            (sample :: rest).any (fun a => decide (a.type = .realtime))
          let needsForecast :=
            (sample :: rest).any (fun a => decide (a.type = .forecast))
          let m1 :=
            if needsRealtime then
              match rt sample.location with
              | .ok data =>
                if (lookupKey m (realtimeKey locationKey)).isSome then m
                else m ++ [(realtimeKey locationKey, .current data)]
              | .error _ => m
            else m
          if needsForecast then
            (groupTimesteps (sample :: rest)).foldl
              (forecastFetchStep fc sample.location locationKey) m1
          else m1) =
        m ++ groupEntries rt fc (lk, sample :: rest)
    simp only []
    rw [hm1]
    by_cases hFC : (sample :: rest).any (fun a => decide (a.type = .forecast)) = true
    · rw [if_pos hFC]
      rw [forecastFold_fresh fc sample.location lk
        (groupTimesteps (sample :: rest)) _ (groupTimesteps_nodup _) ?fresh]
      · simp only [groupEntries, if_pos hFC, List.append_assoc]
      case fresh =>
        intro ts hts
        have hcand : forecastKey ts lk ∈ candidateKeys (lk, sample :: rest) :=
          List.mem_cons_of_mem _ (List.mem_map.mpr ⟨ts, hts, rfl⟩)
        rw [lookupKey_append, hfresh _ hcand]
        by_cases hRT : (sample :: rest).any (fun a => decide (a.type = .realtime)) = true
        · cases hro : rt sample.location with
          | ok d =>
            simp [hRT, hro, lookupKey_cons, lookupKey_nil,
              (realtimeKey_ne_forecastKey lk lk ts).symm,
              fun h => realtimeKey_ne_forecastKey lk lk ts h]
          | error e => simp [hRT, hro, lookupKey_nil]
        · simp [hRT, lookupKey_nil]
    · rw [if_neg hFC]
      simp only [groupEntries, if_neg hFC, List.append_nil]

theorem groupEntries_keys_sub (rt : RealtimeOracle) (fc : ForecastOracle)
    (g : String × List WeatherAlert) :
    ∀ p ∈ groupEntries rt fc g, p.1 ∈ candidateKeys g := by
  obtain ⟨lk, las⟩ := g
  cases las with
  | nil => intro p hp; simp [groupEntries] at hp
  | cons sample rest =>
    intro p hp
    simp only [groupEntries] at hp
    rcases List.mem_append.mp hp with h1 | h2
    · by_cases hRT : (sample :: rest).any (fun a => decide (a.type = .realtime)) = true
      · rw [if_pos hRT] at h1
        cases hro : rt sample.location with
        | ok d =>
          rw [hro] at h1
          obtain rfl : p = (realtimeKey lk, WRecord.current d) := by
            simpa using h1
          exact List.mem_cons_self ..
        | error e => rw [hro] at h1; simp at h1
      · rw [if_neg hRT] at h1; simp at h1
    · by_cases hFC : (sample :: rest).any (fun a => decide (a.type = .forecast)) = true
      · rw [if_pos hFC] at h2
        obtain ⟨ts, hts, hmem⟩ := List.mem_flatMap.mp h2
        cases hfo : fc sample.location ts with
        | ok d =>
          rw [forecastEntry, hfo] at hmem
          obtain rfl : p = (forecastKey ts lk, WRecord.forecast d) := by
            simpa using hmem
          exact List.mem_cons_of_mem _ (List.mem_map.mpr ⟨ts, hts, rfl⟩)
        | error e => rw [forecastEntry, hfo] at hmem; simp at hmem
      · rw [if_neg hFC] at h2; simp at h2

theorem fetchFold_fresh (rt : RealtimeOracle) (fc : ForecastOracle) :
    ∀ (groups : List (String × List WeatherAlert))
      (m : List (String × WRecord)),
      (groups.map Prod.fst).Nodup →
      (∀ g ∈ groups, ∀ k ∈ candidateKeys g, lookupKey m k = none) →
      groups.foldl (fetchStep rt fc) m =
        m ++ groups.flatMap (groupEntries rt fc) := by
  intro groups
  induction groups with
  | nil => intro m _ _; simp
  | cons g rest ih =>
    intro m hnd hfresh
    simp only [List.map_cons, List.nodup_cons] at hnd
    obtain ⟨hhead, htail⟩ := hnd
    rw [List.foldl_cons, List.flatMap_cons,
      fetchStep_fresh rt fc m g (hfresh g (List.mem_cons_self ..))]
    rw [ih (m ++ groupEntries rt fc g) htail ?fresh, List.append_assoc]
    case fresh =>
      intro g' hg' k hk
      have hne : g.1 ≠ g'.1 := fun h =>
        hhead (h ▸ List.mem_map.mpr ⟨g', hg', rfl⟩)
      rw [lookupKey_append, hfresh g' (List.mem_cons_of_mem _ hg') k hk]
      have hall : ∀ p ∈ groupEntries rt fc g, p.1 ≠ k := by
        intro p hp hpk
        have hpc : p.1 ∈ candidateKeys g := groupEntries_keys_sub rt fc g p hp
        have hdisj : k ∉ candidateKeys (g.1, g.2) :=
          candidateKeys_disjoint (fun h => hne h.symm)
            (show k ∈ candidateKeys (g'.1, g'.2) from hk)
        rw [hpk] at hpc
        exact hdisj hpc
      rw [lookupKey_eq_none_iff.mpr hall]

theorem lookup_forecastEntries (fc : ForecastOracle) (loc : LocationQuery)
    (lk : String) :
    ∀ (tss : List Timestep), tss.Nodup → ∀ ts ∈ tss,
      lookupKey (tss.flatMap (forecastEntry fc loc lk)) (forecastKey ts lk) =
        match fc loc ts with
        | .ok d => some (.forecast d)
        | .error _ => none := by
  intro tss
  induction tss with
  | nil => intro _ ts hts; simp at hts
  | cons t0 rest ih =>
    intro hnd ts hts
    rw [List.flatMap_cons, lookupKey_append]
    rcases List.mem_cons.mp hts with rfl | hts'
    · cases hfc : fc loc ts with
      | ok d => simp [forecastEntry, hfc, lookupKey_cons]
      | error e =>
        have hrest : lookupKey (rest.flatMap (forecastEntry fc loc lk))
            (forecastKey ts lk) = none := by
          rw [lookupKey_eq_none_iff]
          intro p hp hpk
          obtain ⟨ts', hts', hmem⟩ := List.mem_flatMap.mp hp
          cases hfo : fc loc ts' with
          | ok d' =>
            rw [forecastEntry, hfo] at hmem
            obtain rfl : p = (forecastKey ts' lk, WRecord.forecast d') := by
              simpa using hmem
            have : ts' = ts := (forecastKey_inj hpk).1
            exact (List.nodup_cons.mp hnd).1 (this ▸ hts')
          | error e' => rw [forecastEntry, hfo] at hmem; simp at hmem
        simp [forecastEntry, hfc, lookupKey_nil, hrest]
    · have hne : t0 ≠ ts := fun h => (List.nodup_cons.mp hnd).1 (h ▸ hts')
      have hkeyne : forecastKey t0 lk ≠ forecastKey ts lk :=
        fun h => hne (forecastKey_inj h).1
      have hhead : lookupKey (forecastEntry fc loc lk t0)
          (forecastKey ts lk) = none := by
        cases hfc : fc loc t0 with
        | ok d =>
          simp [forecastEntry, hfc, lookupKey_cons, lookupKey_nil, hkeyne]
        | error e => simp [forecastEntry, hfc, lookupKey_nil]
      rw [hhead]
      simpa using ih (List.nodup_cons.mp hnd).2 ts hts'

theorem lookup_groupEntries_realtime (rt : RealtimeOracle)
    (fc : ForecastOracle) (lk : String) (sample : WeatherAlert)
    (rest : List WeatherAlert)
    (hRT : (sample :: rest).any (fun a => decide (a.type = .realtime)) = true) :
    lookupKey (groupEntries rt fc (lk, sample :: rest)) (realtimeKey lk) =
      match rt sample.location with
      | .ok d => some (.current d)
      | .error _ => none := by
  have hfcnone : lookupKey
      (if (sample :: rest).any (fun a => decide (a.type = .forecast)) then
        (groupTimesteps (sample :: rest)).flatMap
          (forecastEntry fc sample.location lk)
      else []) (realtimeKey lk) = none := by
    rw [lookupKey_eq_none_iff]
    intro p hp hpk
    by_cases hFC : (sample :: rest).any (fun a => decide (a.type = .forecast)) = true
    · rw [if_pos hFC] at hp
      obtain ⟨ts, hts, hmem⟩ := List.mem_flatMap.mp hp
      cases hfo : fc sample.location ts with
      | ok d =>
        rw [forecastEntry, hfo] at hmem
        obtain rfl : p = (forecastKey ts lk, WRecord.forecast d) := by
          simpa using hmem
        exact realtimeKey_ne_forecastKey lk lk ts hpk.symm
      | error e => rw [forecastEntry, hfo] at hmem; simp at hmem
    · rw [if_neg hFC] at hp
      simp at hp
  simp only [groupEntries]
  rw [lookupKey_append, if_pos hRT]
  cases hro : rt sample.location with
  | ok d => simp [lookupKey_cons]
  | error e => exact hfcnone

theorem lookup_groupEntries_forecast (rt : RealtimeOracle)
    (fc : ForecastOracle) (lk : String) (sample : WeatherAlert)
    (rest : List WeatherAlert) (ts : Timestep)
    (hts : ts ∈ groupTimesteps (sample :: rest)) :
    lookupKey (groupEntries rt fc (lk, sample :: rest)) (forecastKey ts lk) =
      match fc sample.location ts with
      | .ok d => some (.forecast d)
      | .error _ => none := by
  have hFC := groupTimesteps_needsForecast hts
  have hrtnone : lookupKey
      (if (sample :: rest).any (fun a => decide (a.type = .realtime)) then
        match rt sample.location with
        | .ok data => [(realtimeKey lk, WRecord.current data)]
        | .error _ => []
      else []) (forecastKey ts lk) = none := by
    rw [lookupKey_eq_none_iff]
    intro p hp hpk
    by_cases hRT : (sample :: rest).any (fun a => decide (a.type = .realtime)) = true
    · rw [if_pos hRT] at hp
      cases hro : rt sample.location with
      | ok d =>
        rw [hro] at hp
        obtain rfl : p = (realtimeKey lk, WRecord.current d) := by
          simpa using hp
        exact realtimeKey_ne_forecastKey lk lk ts hpk
      | error e => rw [hro] at hp; simp at hp
    · rw [if_neg hRT] at hp
      simp at hp
  simp only [groupEntries]
  rw [lookupKey_append, hrtnone, if_pos hFC]
  exact lookup_forecastEntries fc sample.location lk _
    (groupTimesteps_nodup _) ts hts

theorem lookup_flatMap_entries_none (rt : RealtimeOracle)
    (fc : ForecastOracle) (gs : List (String × List WeatherAlert))
    (K : String) (h : ∀ g ∈ gs, K ∉ candidateKeys g) :
    lookupKey (gs.flatMap (groupEntries rt fc)) K = none := by
  rw [lookupKey_eq_none_iff]
  intro p hp hpk
  obtain ⟨g, hg, hmem⟩ := List.mem_flatMap.mp hp
  exact h g hg (hpk ▸ groupEntries_keys_sub rt fc g p hmem)

/-- C7: an alert whose weather-map entry is absent evaluates to
`not_triggered` while alerts with present entries are evaluated against
their fetched data; and in the fan-out fetch each location's entry is
governed solely by that location's own fetch outcome (present with the
fetched record on success, absent on failure), independent of every
other location. -/
theorem missing_data_isolation_spec :
    (∀ (alerts : List WeatherAlert) (wmap : List (String × WRecord))
       (a : WeatherAlert), a ∈ alerts → (alerts.map (·._id)).Nodup →
       (∀ key, weatherDataKey a = .ok key → lookupKey wmap key = none →
         lookupKey (evaluateAlerts alerts wmap) a._id =
           some .not_triggered) ∧
       (∀ key wd, weatherDataKey a = .ok key → lookupKey wmap key = some wd →
         lookupKey (evaluateAlerts alerts wmap) a._id =
           some (evaluateAlert a wd))) ∧
    (∀ (rt : RealtimeOracle) (fc : ForecastOracle)
       (groups : List (String × List WeatherAlert)),
       (groups.map Prod.fst).Nodup →
       ∀ lk sample rest, (lk, sample :: rest) ∈ groups →
       (((sample :: rest).any (fun a => decide (a.type = .realtime)) = true →
         lookupKey (fetchWeatherDataForLocations rt fc groups)
             (realtimeKey lk) =
           match rt sample.location with
           | .ok d => some (.current d)
           | .error _ => none) ∧
        (∀ ts ∈ groupTimesteps (sample :: rest),
         lookupKey (fetchWeatherDataForLocations rt fc groups)
             (forecastKey ts lk) =
           match fc sample.location ts with
           | .ok d => some (.forecast d)
           | .error _ => none))) := by
  constructor
  · intro alerts wmap a ha hnd
    have h := evalFold_lookup wmap alerts [] a ha hnd
    constructor
    · intro key hkey hnone
      rw [show evaluateAlerts alerts wmap =
            alerts.foldl (evalStep wmap) [] from rfl, h, hkey]
      simp [hnone]
    · intro key wd hkey hsome
      rw [show evaluateAlerts alerts wmap =
            alerts.foldl (evalStep wmap) [] from rfl, h, hkey]
      simp [hsome]
  · intro rt fc groups hnd0 lk sample rest hmem
    obtain ⟨pre, post, hsplit⟩ := List.append_of_mem hmem
    subst hsplit
    have hnd := hnd0
    rw [List.map_append, List.map_cons, List.nodup_append] at hnd
    obtain ⟨hpre, hcons, hdisj⟩ := hnd
    have hlk_post : lk ∉ post.map Prod.fst := (List.nodup_cons.mp hcons).1
    have hflat : fetchWeatherDataForLocations rt fc
        (pre ++ (lk, sample :: rest) :: post) =
        (pre ++ (lk, sample :: rest) :: post).flatMap
          (groupEntries rt fc) := by
      have hff := fetchFold_fresh rt fc
        (pre ++ (lk, sample :: rest) :: post) [] hnd0
        (fun g _ k _ => rfl)
      unfold fetchWeatherDataForLocations
      rw [hff]
      rfl
    have hpre_none : ∀ K, K ∈ candidateKeys (lk, sample :: rest) →
        lookupKey (pre.flatMap (groupEntries rt fc)) K = none := by
      intro K hK
      apply lookup_flatMap_entries_none
      intro g hg
      have hne : lk ≠ g.1 := by
        intro h
        exact hdisj (List.mem_map.mpr ⟨g, hg, rfl⟩)
          (h ▸ List.mem_cons_self ..)
      exact candidateKeys_disjoint hne hK
    have hpost_none : ∀ K, K ∈ candidateKeys (lk, sample :: rest) →
        lookupKey (post.flatMap (groupEntries rt fc)) K = none := by
      intro K hK
      apply lookup_flatMap_entries_none
      intro g hg
      have hne : lk ≠ g.1 := by
        intro h
        exact hlk_post (h ▸ List.mem_map.mpr ⟨g, hg, rfl⟩)
      exact candidateKeys_disjoint hne hK
    constructor
    · intro hRT
      have hcand : realtimeKey lk ∈ candidateKeys (lk, sample :: rest) :=
        List.mem_cons_self ..
      rw [hflat, List.flatMap_append, List.flatMap_cons, lookupKey_append,
        hpre_none _ hcand, lookupKey_append,
        lookup_groupEntries_realtime rt fc lk sample rest hRT]
      cases hro : rt sample.location with
      | ok d => rfl
      | error e => simpa using hpost_none _ hcand
    · intro ts hts
      have hcand : forecastKey ts lk ∈ candidateKeys (lk, sample :: rest) :=
        List.mem_cons_of_mem _ (List.mem_map.mpr ⟨ts, hts, rfl⟩)
      rw [hflat, List.flatMap_append, List.flatMap_cons, lookupKey_append,
        hpre_none _ hcand, lookupKey_append,
        lookup_groupEntries_forecast rt fc lk sample rest ts hts]
      cases hfo : fc sample.location ts with
      | ok d => rfl
      | error e => simpa using hpost_none _ hcand

/-- Witness for C7: with an empty weather map the Cairo alert resolves to
`not_triggered`; and in a two-location fan-out where Cairo's fetch fails
and the coordinate location's fetch succeeds, the coordinate location's
entry holds its fetched record. -/
theorem missing_data_isolation_spec_witness :
    lookupKey
      (evaluateAlerts
        [WeatherAlert.mk "a1" .realtime "temperature" ">" 30
          (LocationQuery.mk none none (some "Cairo")) none] [])
      "a1" = some AlertState.not_triggered ∧
    lookupKey
      (fetchWeatherDataForLocations
        (fun loc => if loc.city = some "Cairo" then .error "down"
          else .ok (WeatherData.mk 35 50 10 0 (Precipitation.mk 0 0) 10000
            none none none none))
        (fun _ _ => .error "unused")
        [("cairo", [WeatherAlert.mk "a1" .realtime "temperature" ">" 30
            (LocationQuery.mk none none (some "Cairo")) none]),
         ("30,31", [WeatherAlert.mk "b1" .realtime "temperature" ">" 30
            (LocationQuery.mk (some 30) (some 31) none) none])])
      (realtimeKey "30,31") =
      some (.current (WeatherData.mk 35 50 10 0 (Precipitation.mk 0 0) 10000
        none none none none)) := by
  constructor
  · exact (missing_data_isolation_spec.1
      [WeatherAlert.mk "a1" .realtime "temperature" ">" 30
        (LocationQuery.mk none none (some "Cairo")) none] []
      (WeatherAlert.mk "a1" .realtime "temperature" ">" 30
        (LocationQuery.mk none none (some "Cairo")) none)
      (by decide) (by decide)).1
      (realtimeKey "cairo") (by decide) rfl
  · have h := (missing_data_isolation_spec.2
      (fun loc => if loc.city = some "Cairo" then .error "down"
        else .ok (WeatherData.mk 35 50 10 0 (Precipitation.mk 0 0) 10000
          none none none none))
      (fun _ _ => .error "unused")
      [("cairo", [WeatherAlert.mk "a1" .realtime "temperature" ">" 30
          (LocationQuery.mk none none (some "Cairo")) none]),
       ("30,31", [WeatherAlert.mk "b1" .realtime "temperature" ">" 30
          (LocationQuery.mk (some 30) (some 31) none) none])]
      (by decide) "30,31"
      (WeatherAlert.mk "b1" .realtime "temperature" ">" 30
        (LocationQuery.mk (some 30) (some 31) none) none)
      [] (by decide)).1 (by decide)
    rw [h]
    decide
